import Mathlib

/-!
Verification of the MovieMate recommendation scoring engine and catalog query
layer (`src/services/movieApiService.js`, the recommendation service and the
TMDB API configuration), as a shallow embedding in Lean 4.

Modelling conventions, used throughout:

* JavaScript numbers are modelled as `ℚ`.  All arithmetic inside the embedded
  definitions goes through the kernel-computable wrappers `qadd`, `qsub`,
  `qmul`, `qdiv`, `qle`, `qlt`, `qabs`, `qmax`, `qmin` below, which are proved
  equal to the corresponding field operations (`qadd_eq` etc.), so theorems can
  be stated with ordinary `+`, `≤`, … while concrete runs still evaluate with
  `decide`.
* JavaScript strings are Lean `String`s.  `toLowerCase`/`trim` are modelled
  character-wise over ASCII (`jsToLower`, `jsTrim`), substring search by
  `strContains`.
* `null`/`undefined`/`NaN` fields are modelled with `Option`; JavaScript
  truthiness tests on strings and numbers are made explicit (`· ≠ ""`,
  `· ≠ 0`) where the source tests `if (x)`.
* The ambient clock (`new Date()`) is passed explicitly: `currentYear : ℤ`
  for `new Date().getFullYear()` and `todaysDate : SimpleDate` for the
  start-of-day date used by the released-movie check.
* Movie identifiers are modelled as `String` (the JS code mixes strings and
  numbers but compares them after `String(...)` coercion in the paths the
  claims touch).
-/

namespace MovieMate


/-! ### Kernel-computable rational arithmetic

`Rat.add`/`Rat.mul`/… do not reduce inside the Lean kernel, so the embedded
code uses these `mkRat`-based wrappers instead; each is proved equal to the
corresponding standard operation. -/

def qadd (a b : ℚ) : ℚ := mkRat (a.num * b.den + b.num * a.den) (a.den * b.den)

def qneg (a : ℚ) : ℚ := mkRat (-a.num) a.den

def qsub (a b : ℚ) : ℚ := qadd a (qneg b)

def qmul (a b : ℚ) : ℚ := mkRat (a.num * b.num) (a.den * b.den)

def qdiv (a b : ℚ) : ℚ :=
  if b.num < 0 then mkRat (-(a.num * (b.den : ℤ))) (a.den * b.num.natAbs)
  else mkRat (a.num * (b.den : ℤ)) (a.den * b.num.natAbs)

def qle (a b : ℚ) : Bool := a.num * (b.den : ℤ) ≤ b.num * (a.den : ℤ)

def qlt (a b : ℚ) : Bool := a.num * (b.den : ℤ) < b.num * (a.den : ℤ)

def qabs (a : ℚ) : ℚ := if a.num < 0 then qneg a else a

def qmax (a b : ℚ) : ℚ := if qle a b then b else a

def qmin (a b : ℚ) : ℚ := if qle a b then a else b

/-! ### String helpers

ASCII character-wise models of the JavaScript string operations used by the
service: `toLowerCase`, `trim`, `includes`, `startsWith`, the `replace` in
`normalizeString`, and `String.prototype.slice` via `strDrop`. -/

def lowerChar (c : Char) : Char :=
  if 'A' ≤ c ∧ c ≤ 'Z' then Char.ofNat (c.toNat + 32) else c

def jsToLower (s : String) : String := String.mk (s.toList.map lowerChar)

def jsTrim (s : String) : String :=
  String.mk (((s.toList.dropWhile Char.isWhitespace).reverse.dropWhile
    Char.isWhitespace).reverse)

def strContains (s sub : String) : Bool :=
  (s.toList.tails).any (fun t => sub.toList.isPrefixOf t)

def strStartsWith (s p : String) : Bool := p.toList.isPrefixOf s.toList

def strDrop (s : String) (n : ℕ) : String := String.mk (s.toList.drop n)

/-- Model of `normalizeString` (recommendation service): lower-case, trim, then
strip every character that is neither a word character (`\w`) nor
whitespace (`\s`); `null`/`undefined` inputs are modelled by the caller
passing an `Option`. -/
def normalizeString (str : String) : String :=
  String.mk ((jsTrim (jsToLower str)).toList.filter fun c =>
    c.isAlphanum || c = '_' || c.isWhitespace)

/-! ### Data model

`Movie` is the canonical movie record shape produced by
`convertTMDBToMovieFormat` / `normalizeLocalToAPI`; fields that no claim
touches (poster, overview/summary, original_title) are omitted.  `LocalMovie`
is the raw local record shape consumed by `normalizeLocalToAPI`.  Absent
(`null`/`undefined`) or unparseable (`NaN` after `parseFloat`/`parseInt`)
values are `none`. -/

structure SimpleDate where
  year : ℤ
  month : ℤ
  day : ℤ
deriving DecidableEq, Repr

/-- Date comparison `new Date(a) <= new Date(b)` for date-only values,
lexicographic on (year, month, day). -/
def dateLE (a b : SimpleDate) : Bool :=
  a.year < b.year ∨ (a.year = b.year ∧
    (a.month < b.month ∨ (a.month = b.month ∧ a.day ≤ b.day)))

structure LocalMovie where
  id : String
  title : String
  year : Option ℤ
  genre : Option String
  imdb : Option ℚ
  director : Option String
  cast : List String
deriving DecidableEq, Repr

structure Movie where
  id : String
  title : String
  year : Option ℤ
  release_date : Option SimpleDate
  genre : Option String
  genre_ids : List ℤ
  director : Option String
  cast : List String
  imdb : Option ℚ
  vote_average : Option ℚ
  tmdbId : Option String
  original_language : Option String
  isLocal : Bool
  localData : Option LocalMovie
deriving DecidableEq, Repr

/-- Convenience template so concrete movies in witnesses can be written with
`{ emptyMovie with ... }`; not part of the embedded code. -/
def emptyMovie : Movie :=
  { id := "", title := "", year := none, release_date := none, genre := none,
    genre_ids := [], director := none, cast := [], imdb := none,
    vote_average := none, tmdbId := none, original_language := none,
    isLocal := false, localData := none }

/-- Entries of the `watchedMovies` argument: either a bare id or an embedded
movie object. -/
inductive WatchedEntry where
  | id (s : String)
  | movie (m : Movie)
deriving DecidableEq

/-! ### Scoring engine (`calculateRecommendationScore` and helpers) -/

/-- Association-list model of a plain JS object used as a frequency map. -/
def freqLookup (m : List (String × ℚ)) (k : String) : Option ℚ :=
  (m.find? (fun p => p.1 = k)).map (·.2)

/-- JavaScript `x || 1` on an optionally-present number: absent or `0`
(falsy) yields `1`. -/
def jsOr1 (v : Option ℚ) : ℚ :=
  match v with
  | some v => if v = 0 then mkRat 1 1 else v
  | none => mkRat 1 1

/-- Output shape of `precomputePreferences`: normalized membership sets (the
source uses JS `Set`s; we keep insertion-ordered duplicate-free lists) plus
the raw-label frequency maps. -/
structure PrecomputedPrefs where
  genres : List String
  directors : List String
  actors : List String
  minRating : ℚ
  userAvgRating : Option ℚ
  genreFrequency : List (String × ℚ)
  directorFrequency : List (String × ℚ)
  actorFrequency : List (String × ℚ)
deriving DecidableEq, Repr

/-- Model of `genresMatch`: false when the movie genre is absent/empty (falsy)
or the preference set is empty, else membership of the normalized genre. -/
def genresMatch (movieGenre : Option String) (precomputedGenres : List String) : Bool :=
  match movieGenre with
  | none => false
  | some g =>
    if g = "" ∨ precomputedGenres = [] then false
    else precomputedGenres.contains (normalizeString g)

/-- Model of `directorMatches`. -/
def directorMatches (movieDirector : Option String) (precomputedDirectors : List String) : Bool :=
  match movieDirector with
  | none => false
  | some d =>
    if d = "" ∨ precomputedDirectors = [] then false
    else precomputedDirectors.contains (normalizeString d)

/-- Model of `actorMatches`: true when some preferred actor occurs in the
normalized cast. -/
def actorMatches (movieCast : List String) (precomputedActors : List String) : Bool :=
  if movieCast = [] then false
  else if precomputedActors = [] then false
  else precomputedActors.any (fun a => (movieCast.map normalizeString).contains a)

/-- Model of `getMovieRating`: parsed `imdb` rating when present, else
`vote_average`, else 0.  (`imdb = "0.0"` parses to 0 and is returned; a falsy
`vote_average = 0` falls through to the same value 0.) -/
def getMovieRating (movie : Movie) : ℚ :=
  match movie.imdb with
  | some r => r
  | none =>
    match movie.vote_average with
    | some v => v
    | none => mkRat 0 1

/-- The `breakdown` audit flags attached to each scoring result. -/
structure ScoreBreakdown where
  genreHighScore : Bool
  genreMatch : Bool
  directorMatch : Bool
  actorMatch : Bool
  multipleMatches : Bool
deriving DecidableEq, Repr

structure ScoreResult where
  score : ℚ
  rating : ℚ
  matchCount : ℕ
  breakdown : ScoreBreakdown
deriving DecidableEq, Repr

/-- Model of `calculateRecommendationScore`.  `currentYear` stands for the
ambient `new Date().getFullYear()` read by the recency-bonus block.  The JS
truthiness test `if (movie.year)` skips the block for year 0; the test
`if (precomputedPrefs.userAvgRating)` skips the proximity block for 0. -/
def calculateRecommendationScore (currentYear : ℤ) (movie : Movie)
    (precomputedPrefs : PrecomputedPrefs) : ScoreResult :=
  let rating := getMovieRating movie
  let genreMatch := genresMatch movie.genre precomputedPrefs.genres
  let directorMatch := directorMatches movie.director precomputedPrefs.directors
  let actorMatch := actorMatches movie.cast precomputedPrefs.actors
  let matchCount : ℕ :=
    (if genreMatch then 1 else 0) + (if directorMatch then 1 else 0) +
      (if actorMatch then 1 else 0)
  let genreScore : ℚ :=
    if genreMatch then
      let genreWeight := jsOr1 (freqLookup precomputedPrefs.genreFrequency
        (movie.genre.getD ""))
      let weightedMultiplier := qmin genreWeight (mkRat 2 1)
      if qle (mkRat 8 1) rating then qmul (mkRat 100 1) weightedMultiplier
      else qmul (mkRat 50 1) weightedMultiplier
    else mkRat 0 1
  let directorScore : ℚ :=
    if directorMatch then
      let directorWeight := jsOr1 (freqLookup precomputedPrefs.directorFrequency
        (movie.director.getD ""))
      qmul (mkRat 30 1) (qmin directorWeight (mkRat 3 2))
    else mkRat 0 1
  let actorScore : ℚ :=
    if actorMatch then
      let normalizedCast := movie.cast.map normalizeString
      let matchedActor : Option String :=
        match precomputedPrefs.actors.find? (fun a => normalizedCast.contains a) with
        | some a => movie.cast.find? (fun c => normalizeString c = a)
        | none => none
      let actorWeight :=
        match matchedActor with
        | some ma => jsOr1 (freqLookup precomputedPrefs.actorFrequency ma)
        | none => mkRat 1 1
      qmul (mkRat 20 1) (qmin actorWeight (mkRat 3 2))
    else mkRat 0 1
  let bonusScore : ℚ :=
    qadd (if matchCount ≥ 2 then mkRat 25 1 else mkRat 0 1)
      (if matchCount ≥ 3 then mkRat 50 1 else mkRat 0 1)
  let proximityScore : ℚ :=
    match precomputedPrefs.userAvgRating with
    | some u =>
      if u = 0 then mkRat 0 1
      else
        let ratingDiff := qabs (qsub rating u)
        if qle ratingDiff (mkRat 1 2) then mkRat 15 1
        else if qle ratingDiff (mkRat 1 1) then mkRat 10 1
        else mkRat 0 1
    | none => mkRat 0 1
  let recencyScore : ℚ :=
    match movie.year with
    | some y =>
      if y = 0 then mkRat 0 1
      else
        let yearsAgo := currentYear - y
        if yearsAgo ≤ 5 then mkRat 5 1
        else if yearsAgo ≤ 10 then mkRat 3 1
        else mkRat 0 1
    | none => mkRat 0 1
  let score := qadd (qadd (qadd (qadd (qadd genreScore directorScore) actorScore)
    bonusScore) proximityScore) recencyScore
  { score := score
    rating := rating
    matchCount := matchCount
    breakdown :=
      { genreHighScore := genreMatch && qle (mkRat 8 1) rating
        genreMatch := genreMatch && qlt rating (mkRat 8 1)
        directorMatch := directorMatch
        actorMatch := actorMatch
        multipleMatches := matchCount ≥ 2 } }

/-- The rating-proximity bonus block of `calculateRecommendationScore`,
transcribed on its own: skipped (0) when `userAvgRating` is falsy (absent or
0), else 15 when the candidate's rating is within 0.5 of it, 10 within 1,
0 otherwise. -/
def proximityBonus (rating : ℚ) (userAvgRating : Option ℚ) : ℚ :=
  match userAvgRating with
  | some u =>
    if u = 0 then mkRat 0 1
    else
      let ratingDiff := qabs (qsub rating u)
      if qle ratingDiff (mkRat 1 2) then mkRat 15 1
      else if qle ratingDiff (mkRat 1 1) then mkRat 10 1
      else mkRat 0 1
  | none => mkRat 0 1

/-- The recency bonus block of `calculateRecommendationScore`, transcribed on
its own: skipped (0) when the release year is falsy (absent or 0), else 5
when the movie is at most 5 years old, 3 at most 10, 0 otherwise. -/
def recencyBonus (currentYear : ℤ) (year : Option ℤ) : ℚ :=
  match year with
  | some y =>
    if y = 0 then mkRat 0 1
    else
      let yearsAgo := currentYear - y
      if yearsAgo ≤ 5 then mkRat 5 1
      else if yearsAgo ≤ 10 then mkRat 3 1
      else mkRat 0 1
  | none => mkRat 0 1

/-! ### Generic list machinery

JS `Array.prototype.sort` with a comparator is (ES2019+) a stable sort; we
model it by insertion sort, which computes the same stable result.
JS `Set` iteration order is insertion order with first occurrence kept, hence
`dedupFirst`. -/

def insertSorted (le : α → α → Bool) (a : α) : List α → List α
  | [] => [a]
  | b :: t => if le a b then a :: b :: t else b :: insertSorted le a t

def sortByRel (le : α → α → Bool) : List α → List α
  | [] => []
  | a :: t => insertSorted le a (sortByRel le t)

def dedupFirst (l : List String) : List String :=
  l.foldl (fun acc s => if acc.contains s then acc else acc ++ [s]) []

def strLtChars : List Char → List Char → Bool
  | [], [] => false
  | [], _ :: _ => true
  | _ :: _, [] => false
  | a :: as, b :: bs =>
    if a.toNat < b.toNat then true
    else if b.toNat < a.toNat then false
    else strLtChars as bs

/-- Lexicographic string order used by JS default `Array.prototype.sort`. -/
def strLeB (a b : String) : Bool := !(strLtChars b.toList a.toList)

def sortStrings (l : List String) : List String := sortByRel strLeB l

/-- Sum of a list of numbers, mirroring `reduce((sum, r) => sum + r, 0)`. -/
def qsum (l : List ℚ) : ℚ := l.foldl qadd (mkRat 0 1)

/-! ### Preference extractor (`extractUserPreferences` and memoization) -/

/-- JS truthiness on an optionally-present string: `""` is falsy. -/
def truthyStr (o : Option String) : Option String :=
  match o with
  | some s => if s = "" then none else some s
  | none => none

/-- Resolution of `watchedMovies` entries (`watchedMoviesData` in the source):
an object with a truthy `title` is used directly; anything else is treated as
an id and looked up in `allMovies` by `id` or `tmdbId`; unresolved entries are
dropped. -/
def resolveWatched (watchedMovies : List WatchedEntry) (allMovies : List Movie) :
    List Movie :=
  watchedMovies.filterMap fun e =>
    match e with
    | .movie m => if m.title ≠ "" then some m else none
    | .id s => allMovies.find? (fun m => m.id = s ∨ m.tmdbId = some s)

/-- Increment of a frequency-map entry (`obj[k] = (obj[k] || 0) + 1`). -/
def incrFreq (m : List (String × ℚ)) (k : String) : List (String × ℚ) :=
  match freqLookup m k with
  | some v => m.map (fun p => if p.1 = k then (p.1, qadd v (mkRat 1 1)) else p)
  | none => m ++ [(k, mkRat 1 1)]

/-- Raw output shape of `extractUserPreferences`.  The empty-input early
return in the source carries only `genres`/`directors`/`actors`/`minRating`;
its remaining (undefined) fields are modelled as `none`/`[]`, matching the
`|| {}` / `|| null` defaults applied by `precomputePreferences`. -/
structure Preferences where
  genres : List String
  directors : List String
  actors : List String
  minRating : ℚ
  userAvgRating : Option ℚ
  genreFrequency : List (String × ℚ)
  directorFrequency : List (String × ℚ)
  actorFrequency : List (String × ℚ)
deriving DecidableEq, Repr

/-- The `favoriteRatings` list: parseable positive `imdb` ratings of the
favorites, each weighted ×1.5. -/
def favoriteRatingsOf (favorites : List Movie) : List ℚ :=
  ((favorites.filterMap (·.imdb)).filter
    (fun r => qlt (mkRat 0 1) r)).map (fun r => qmul r (mkRat 3 2))

/-- The `watchedRatings` list: parseable positive `imdb` ratings of the
resolved watched movies, unweighted. -/
def watchedRatingsOf (watchedMoviesData : List Movie) : List ℚ :=
  (watchedMoviesData.filterMap (·.imdb)).filter (fun r => qlt (mkRat 0 1) r)

/-- `avgRating`: mean of the combined (weighted) rating list, defaulting to
8.0 when it is empty. -/
def avgRatingOf (favorites : List Movie) (watchedMoviesData : List Movie) : ℚ :=
  let allRatings := favoriteRatingsOf favorites ++ watchedRatingsOf watchedMoviesData
  if allRatings.length = 0 then mkRat 8 1
  else qdiv (qsum allRatings) (mkRat allRatings.length 1)

/-- `normalizedAvgRating`: when both rating groups are non-empty,
`(Σfav/1.5 + Σwatch) / (nfav/1.5 + nwatch)` (where `Σfav` sums the already
×1.5-weighted favorites), otherwise `avgRating` (which for favorites-only
input is the mean of the ×1.5-weighted values). -/
def normalizedAvgRatingOf (favorites : List Movie) (watchedMoviesData : List Movie) : ℚ :=
  let favoriteRatings := favoriteRatingsOf favorites
  let watchedRatings := watchedRatingsOf watchedMoviesData
  if favoriteRatings.length ≠ 0 ∧ watchedRatings.length ≠ 0 then
    qdiv (qadd (qdiv (qsum favoriteRatings) (mkRat 3 2)) (qsum watchedRatings))
      (qadd (qdiv (mkRat favoriteRatings.length 1) (mkRat 3 2))
        (mkRat watchedRatings.length 1))
  else avgRatingOf favorites watchedMoviesData

/-- `userRatingValues`: the explicit ratings lying in [0.5, 5]. -/
def userRatingValuesOf (userRatings : List (String × ℚ)) : List ℚ :=
  (userRatings.map Prod.snd).filter (fun r => qle (mkRat 1 2) r && qle r (mkRat 5 1))

/-- `userAvgRating`: mean of the explicit ratings when at least one exists. -/
def userAvgRatingOf (userRatings : List (String × ℚ)) : Option ℚ :=
  let vals := userRatingValuesOf userRatings
  if vals.length = 0 then none
  else some (qdiv (qsum vals) (mkRat vals.length 1))

/-- `effectiveAvgRating`: the explicit-ratings average supersedes the derived
one when present. -/
def effectiveAvgRatingOf (favorites : List Movie) (watchedMoviesData : List Movie)
    (userRatings : List (String × ℚ)) : ℚ :=
  (userAvgRatingOf userRatings).getD (normalizedAvgRatingOf favorites watchedMoviesData)

/-- Model of `extractUserPreferences` (the pure value it computes on a cache
miss; memoization is modelled separately by `extractUserPreferencesM`).
The stored `userAvgRating` field is `effectiveAvgRating` — the explicit-rating
average when at least one explicit rating lies in [0.5, 5], otherwise the
derived `normalizedAvgRating` (the JS `a || b` there treats 0 as absent, but
the explicit average is ≥ 1/2, so the `Option` model is faithful). -/
def extractUserPreferences (favorites : List Movie) (watchedMovies : List WatchedEntry)
    (allMovies : List Movie) (userRatings : List (String × ℚ)) : Preferences :=
  let watchedMoviesData := resolveWatched watchedMovies allMovies
  let allUserMovies := favorites ++ watchedMoviesData
  if allUserMovies = [] then
    { genres := [], directors := [], actors := [], minRating := mkRat 0 1,
      userAvgRating := none, genreFrequency := [], directorFrequency := [],
      actorFrequency := [] }
  else
    let genres := dedupFirst (allUserMovies.filterMap (fun m => truthyStr m.genre))
    let directors := dedupFirst (allUserMovies.filterMap (fun m => truthyStr m.director))
    let actors := dedupFirst (allUserMovies.foldl (fun acc m => acc ++ m.cast) [])
    let genreFrequency := allUserMovies.foldl (fun acc m =>
      match truthyStr m.genre with
      | some g => incrFreq acc g
      | none => acc) []
    let directorFrequency := allUserMovies.foldl (fun acc m =>
      match truthyStr m.director with
      | some d => incrFreq acc d
      | none => acc) []
    let actorFrequency := allUserMovies.foldl (fun acc m =>
      m.cast.foldl incrFreq acc) []
    let effectiveAvgRating := effectiveAvgRatingOf favorites watchedMoviesData userRatings
    let minRating := qmax (mkRat 15 2) (qsub effectiveAvgRating (mkRat 1 2))
    { genres := genres
      directors := directors
      actors := actors
      minRating := minRating
      userAvgRating := some effectiveAvgRating
      genreFrequency := genreFrequency
      directorFrequency := directorFrequency
      actorFrequency := actorFrequency }

/-- Model of `precomputePreferences`: normalize the label lists into
membership sets; copy rating data and frequency maps (`|| {}` / `|| null`
defaults made explicit). -/
def precomputePreferences (preferences : Preferences) : PrecomputedPrefs :=
  { genres := dedupFirst (preferences.genres.map normalizeString)
    directors := dedupFirst (preferences.directors.map normalizeString)
    actors := dedupFirst (preferences.actors.map normalizeString)
    minRating := preferences.minRating
    userAvgRating :=
      match preferences.userAvgRating with
      | some r => if r = 0 then none else some r
      | none => none
    genreFrequency := preferences.genreFrequency
    directorFrequency := preferences.directorFrequency
    actorFrequency := preferences.actorFrequency }

/-- A profile object together with an allocation tag modelling JS object
identity: two returned profiles are *the same object* iff their tags are
equal. -/
structure ProfileObj where
  tag : ℕ
  prefs : Preferences
deriving DecidableEq, Repr

/-- The memoization key `JSON.stringify({favIds, watchedIds, ratingKeys})`:
sorted favorite ids, sorted watched ids (an embedded movie entry contributes
its `id`), sorted rating keys.  `JSON.stringify` is injective on this shape,
so the structured triple is kept instead of the string. -/
structure PrefsKey where
  favIds : List String
  watchedIds : List String
  ratingKeys : List String
deriving DecidableEq, Repr

def prefsCacheKey (favorites : List Movie) (watchedMovies : List WatchedEntry)
    (userRatings : List (String × ℚ)) : PrefsKey :=
  { favIds := sortStrings (favorites.map (·.id))
    watchedIds := sortStrings (watchedMovies.map fun e =>
      match e with
      | .movie m => m.id
      | .id s => s)
    ratingKeys := sortStrings (userRatings.map Prod.fst) }

structure PrefsCacheState where
  cache : List (PrefsKey × ProfileObj)
  nextTag : ℕ
deriving DecidableEq

def emptyPrefsCacheState : PrefsCacheState := { cache := [], nextTag := 0 }

/-- Model of `extractUserPreferences` *including* the module-level
`preferencesCache` and object identity.  On a cache hit the stored object
itself is returned (state unchanged).  On the empty-working-set early return a
fresh object is allocated and — matching the source, which returns before the
`preferencesCache.set` line — NOT cached.  Otherwise a fresh object is
allocated and cached under the key. -/
def extractUserPreferencesM (st : PrefsCacheState) (favorites : List Movie)
    (watchedMovies : List WatchedEntry) (allMovies : List Movie)
    (userRatings : List (String × ℚ)) : ProfileObj × PrefsCacheState :=
  let key := prefsCacheKey favorites watchedMovies userRatings
  match st.cache.find? (fun p => p.1 = key) with
  | some p => (p.2, st)
  | none =>
    let prefs := extractUserPreferences favorites watchedMovies allMovies userRatings
    let obj : ProfileObj := { tag := st.nextTag, prefs := prefs }
    if favorites ++ resolveWatched watchedMovies allMovies = [] then
      (obj, { st with nextTag := st.nextTag + 1 })
    else
      (obj, { cache := st.cache ++ [(key, obj)], nextTag := st.nextTag + 1 })

/-! ### Catalog client: genre map, conversion, content filters -/

/-- JS `x || 0` on an optionally-present number. -/
def jsOr0 (v : Option ℚ) : ℚ :=
  match v with
  | some v => v
  | none => mkRat 0 1

/-- Entries of `GENRE_MAP` (config/api.js): a display genre maps to a single
provider genre id or to an array of ids (merged category).  The `null` entry
("Tüm Filmler") and a missing entry behave identically (falsy) at every use
site, so both are modelled as `none`. -/
inductive GenreMapEntry where
  | single (id : ℤ)
  | merged (ids : List ℤ)
deriving DecidableEq, Repr

def GENRE_MAP (genre : String) : Option GenreMapEntry :=
  match genre with
  | "Bilim Kurgu" => some (.merged [878, 14])
  | "Komedi" => some (.single 35)
  | "Aksiyon/Macera" => some (.merged [28, 12])
  | "Animasyon" => some (.single 16)
  | "Suç" => some (.single 80)
  | "Drama" => some (.merged [18, 10749])
  | "Gizem" => some (.merged [9648, 53])
  | "Belgesel" => some (.single 99)
  | "Korku" => some (.single 27)
  | _ => none

def mapTMDBGenreToLocal (genreId : ℤ) : String :=
  if genreId = 878 then "Bilim Kurgu"
  else if genreId = 35 then "Komedi"
  else if genreId = 28 then "Aksiyon/Macera"
  else if genreId = 16 then "Animasyon"
  else if genreId = 80 then "Suç"
  else if genreId = 12 then "Aksiyon/Macera"
  else if genreId = 18 then "Drama"
  else if genreId = 9648 then "Gizem"
  else if genreId = 99 then "Belgesel"
  else if genreId = 27 then "Korku"
  else if genreId = 53 then "Gizem"
  else if genreId = 10749 then "Drama"
  else if genreId = 14 then "Bilim Kurgu"
  else "Bilinmeyen"

def mapEnglishGenreToTurkish (genreName : String) : String :=
  match genreName with
  | "Science Fiction" => "Bilim Kurgu"
  | "Comedy" => "Komedi"
  | "Action" => "Aksiyon/Macera"
  | "Animation" => "Animasyon"
  | "Crime" => "Suç"
  | "Adventure" => "Aksiyon/Macera"
  | "Drama" => "Drama"
  | "Mystery" => "Gizem"
  | "Documentary" => "Belgesel"
  | "Biography" => "Belgesel"
  | "Horror" => "Korku"
  | "Thriller" => "Gizem"
  | "Romance" => "Drama"
  | "Fantasy" => "Bilim Kurgu"
  | g => g

/-- A genre record `{id, name}` inside a raw TMDB response. -/
structure RawGenre where
  id : ℤ
  name : String
deriving DecidableEq, Repr

/-- Raw TMDB movie record as consumed by `convertTMDBToMovieFormat`.  Dates
are parsed into `SimpleDate` (absent/empty → `none`); `director` stands for
the crew member resolved by `getDirectorFromCrew` (job "director",
case-insensitive), which is abstracted to its result; `castNames` for the
names in `credits.cast`.  Presentation-only fields (poster, overview) are
omitted. -/
structure RawMovie where
  id : ℤ
  title : Option String
  original_title : Option String
  release_date : Option SimpleDate
  genre_ids : Option (List ℤ)
  genres : Option (List RawGenre)
  vote_average : Option ℚ
  popularity : Option ℚ
  director : Option String
  castNames : List String
  original_language : Option String
deriving DecidableEq, Repr

/-- Model of `getGenreFromTMDBMovie`: first `genres` entry name (mapped
English→Turkish) when the array is present and non-empty, else first
`genre_ids` entry (mapped), else "Bilinmeyen". -/
def getGenreFromTMDBMovie (m : RawMovie) : String :=
  match m.genres with
  | some (g :: _) => mapEnglishGenreToTurkish g.name
  | _ =>
    match m.genre_ids with
    | some (i :: _) => mapTMDBGenreToLocal i
    | _ => "Bilinmeyen"

/-- JS `Number.prototype.toFixed(1)` followed by `parseFloat`, on the
nonnegative ratings it is applied to: round to one decimal place
(half away from zero on the nonnegative range). -/
def roundTo1 (q : ℚ) : ℚ :=
  let ten := qmul q (mkRat 10 1)
  let shifted := qadd ten (mkRat 1 2)
  mkRat (shifted.num / (shifted.den : ℤ)) 10

/-- Model of `convertTMDBToMovieFormat` with `fullDetails` equal to the record
itself (how every call site the claims touch invokes it).  `genreIds` follows
the source's fallback chain `details.genre_ids || (details.genres ? map id :
[]) || …` whose later alternatives are dead because an array (even empty) is
truthy.  A record whose `title` and `original_title` are both absent gets the
empty string (undefined stringifies only in logging paths).  The converted
record has no `vote_average` field. -/
def convertTMDBToMovieFormat (raw : RawMovie) : Movie :=
  let genreIds : List ℤ :=
    match raw.genre_ids with
    | some l => l
    | none =>
      match raw.genres with
      | some gs => gs.map (·.id)
      | none => []
  { id := "tmdb_" ++ toString raw.id
    title :=
      match truthyStr raw.title with
      | some t => t
      | none => (truthyStr raw.original_title).getD ""
    year := raw.release_date.map (·.year)
    release_date := raw.release_date
    genre := some (getGenreFromTMDBMovie raw)
    genre_ids := genreIds
    director := raw.director
    cast := raw.castNames.take 5
    imdb := some
      (match raw.vote_average with
       | some v => roundTo1 v
       | none => mkRat 0 1)
    vote_average := none
    tmdbId := some (toString raw.id)
    original_language := raw.original_language
    isLocal := false
    localData := none }

/-- Model of `normalizeLocalToAPI`.  Note the `genre_ids` quirk: the source
computes `[GENRE_MAP[genre] || 0].filter(id => id > 0)`, so a merged-category
entry (an array) fails the numeric `> 0` comparison and yields `[]`. -/
def normalizeLocalToAPI (localMovie : LocalMovie) : Movie :=
  { id := "local_" ++ localMovie.id
    title := localMovie.title
    year := localMovie.year
    release_date :=
      match localMovie.year with
      | some y => if y = 0 then none else some ⟨y, 1, 1⟩
      | none => none
    genre := localMovie.genre
    genre_ids :=
      match localMovie.genre with
      | some g =>
        match GENRE_MAP g with
        | some (.single i) => if i > 0 then [i] else []
        | some (.merged _) => []
        | none => []
      | none => []
    director := localMovie.director
    cast := localMovie.cast
    imdb := localMovie.imdb
    vote_average := some (localMovie.imdb.getD (mkRat 0 1))
    tmdbId := none
    original_language := none
    isLocal := true
    localData := some localMovie }

/-- Model of `isMovieReleased`: released iff release date ≤ today (start of
day), else year ≤ current year when a parseable non-zero year exists, else
released by default. -/
def isMovieReleased (todaysDate : SimpleDate) (currentYear : ℤ) (movie : Movie) : Bool :=
  match movie.release_date with
  | some d => dateLE d todaysDate
  | none =>
    match movie.year with
    | some y => if y = 0 then true else decide (y ≤ currentYear)
    | none => true

def blockedTitles : List String := ["nude", "succubus", "the way to the hearth"]

def hasBlockedTitle (movie : Movie) : Bool :=
  blockedTitles.any (fun b => strContains (jsToLower movie.title) (jsToLower b))

def isBlockedLanguage (movie : Movie) : Bool :=
  let l := jsToLower (movie.original_language.getD "")
  l = "tr" || l = "es"

def hasMusicalGenre (movie : Movie) : Bool := movie.genre_ids.contains 10402

/-- The post-fetch filter applied by `searchMoviesByDirector` and
`searchMoviesByActor` (identical blocks in the source): released, not
blocklisted, not Turkish/Spanish, not Musical.  It does NOT require genre ids,
does NOT exclude Family, and applies no genre-pair incompatibility rule. -/
def personQueryFilter (todaysDate : SimpleDate) (currentYear : ℤ) (movie : Movie) : Bool :=
  if !isMovieReleased todaysDate currentYear movie then false
  else if hasBlockedTitle movie then false
  else if isBlockedLanguage movie then false
  else if hasMusicalGenre movie then false
  else true

/-- The post-fetch filter applied by `searchMoviesByGenre`: additionally
requires a non-empty `genre_ids`, excludes Family (10751) unless the queried
category includes Comedy (35), and requires one of the queried genre ids to be
present. -/
def genreQueryFilter (todaysDate : SimpleDate) (currentYear : ℤ)
    (genreIdArray : List ℤ) (movie : Movie) : Bool :=
  if movie.genre_ids = [] then false
  else if !isMovieReleased todaysDate currentYear movie then false
  else if hasBlockedTitle movie then false
  else if jsToLower (movie.original_language.getD "") = "tr" then false
  else if jsToLower (movie.original_language.getD "") = "es" then false
  else if hasMusicalGenre movie then false
  else if !genreIdArray.contains 35 && movie.genre_ids.contains 10751 then false
  else genreIdArray.any (fun g => movie.genre_ids.contains g)

/-- The post-fetch filter applied by `getTopRatedMovies` and
`searchMoviesInTMDB` (identical blocks in the source): like
`personQueryFilter` plus the unconditional Family (10751) exclusion. -/
def titleQueryFilter (todaysDate : SimpleDate) (currentYear : ℤ) (movie : Movie) : Bool :=
  if !isMovieReleased todaysDate currentYear movie then false
  else if hasBlockedTitle movie then false
  else if isBlockedLanguage movie then false
  else if hasMusicalGenre movie then false
  else if movie.genre_ids.contains 10751 then false
  else true

/-! ### Catalog client: query operations

Each public operation is modelled as a function of its inputs, the current
cache contents, and a *fetch oracle* describing the outcome of each external
call (network error / non-2xx status / malformed JSON / success with data).
`hasApiKey` models `getApiUrl` returning `null` when the API key is absent.
`checkRateLimit` only suspends (never throws) and is not modelled.
The result is `Except String (List Movie)`: inside the `try` block every
failed fetch *throws* (`.error`), and the surrounding `catch` converts any
thrown error into a resolved `[]` — so the wrapper at the end of each
function is the model of the source's `catch (error) { …; return []; }`.
The 5-minute cache TTL is not modelled (no claim depends on expiry); a cache
is an association list from key to stored value, and keys are kept as
structured tuples of exactly the fields interpolated into the source's
template-string key. -/

inductive FetchOutcome (α : Type) where
  | netError
  | badStatus
  | malformedJson
  | success (data : α)

def cacheLookup [BEq κ] (c : List (κ × ν)) (k : κ) : Option ν :=
  (c.find? (fun p => p.1 == k)).map (·.2)

def cacheInsert (c : List (κ × ν)) (k : κ) (v : ν) : List (κ × ν) := c ++ [(k, v)]

/-- `parseFloat(m.imdb) || 0`. -/
def parseImdbOr0 (m : Movie) : ℚ := jsOr0 m.imdb

/-- The final `sort((a, b) => parseFloat(b.imdb) - parseFloat(a.imdb))`:
stable sort, rating descending. -/
def sortMoviesByImdbDesc (l : List Movie) : List Movie :=
  sortByRel (fun a b => qle (parseImdbOr0 b) (parseImdbOr0 a)) l

/-- Cache key of `searchMoviesByGenre`:
`genre_${ids}_${sortBy || 'new_rated'}_${minYear}_${maxYear}_${minRating}_${page}`.
The result-count `limit` is NOT part of the key. -/
structure GenreCacheKey where
  genreIds : List ℤ
  sortKey : String
  minYear : Option ℤ
  maxYear : Option ℤ
  minRating : Option ℚ
  page : ℤ
deriving DecidableEq, Repr

structure GenreSearchOptions where
  minYear : Option ℤ := none
  maxYear : Option ℤ := none
  minRating : Option ℚ := none
  page : ℤ := 1
  limit : ℕ := 20
  sortBy : Option String := none
deriving DecidableEq, Repr

def genreCacheKey (genreIdArray : List ℤ) (options : GenreSearchOptions) : GenreCacheKey :=
  { genreIds := genreIdArray
    sortKey := options.sortBy.getD "new_rated"
    minYear := options.minYear
    maxYear := options.maxYear
    minRating := options.minRating
    page := options.page }

def GenreCache := List (GenreCacheKey × List Movie)

structure GenreFetchOracle where
  primary : FetchOutcome (List RawMovie)
  secondary : FetchOutcome (List RawMovie)

/-- The `try`-block of `searchMoviesByGenre`: a failed primary fetch throws;
a failed secondary (merged category) fetch is swallowed (`!response2.ok` is
skipped silently, its other failures are caught by the inner `try`).
`.ok (v, false)` marks the early `return []` paths that bypass `setCache`. -/
def genreSearchBody (hasApiKey : Bool) (todaysDate : SimpleDate) (currentYear : ℤ)
    (genreIdArray : List ℤ) (options : GenreSearchOptions) (oracle : GenreFetchOracle) :
    Except String (List Movie × Bool) :=
  if !hasApiKey then .ok ([], false)
  else
    match oracle.primary with
    | .netError => .error "fetch rejected"
    | .badStatus => .error "API error"
    | .malformedJson => .error "malformed response"
    | .success data =>
      let results := data
      let results :=
        if genreIdArray.length > 1 then
          match oracle.secondary with
          | .success data2 =>
            let existingIds := results.map (·.id)
            let newResults := data2.filter (fun m => !existingIds.contains m.id)
            let merged := results ++ newResults
            if options.sortBy = some "most_liked" then
              sortByRel (fun a b => qle (jsOr0 b.popularity) (jsOr0 a.popularity)) merged
            else
              sortByRel (fun a b => qle (jsOr0 b.vote_average) (jsOr0 a.vote_average)) merged
          | _ => results
        else results
      let fetchLimit := min (if options.limit = 0 then 50 else options.limit) results.length
      let basicMovies := (results.take fetchLimit).map convertTMDBToMovieFormat
      let validMovies := basicMovies.filter
        (genreQueryFilter todaysDate currentYear genreIdArray)
      let validMovies :=
        if options.sortBy = some "most_liked" ∨ options.sortBy = some "most_rated" ∨
            options.sortBy = none ∨ options.sortBy = some "new_most_rated" then
          sortMoviesByImdbDesc validMovies
        else validMovies
      .ok (validMovies, true)

/-- Model of `searchMoviesByGenre`: genre-id resolution, cache probe, the
`try` block (`genreSearchBody`), and the `catch` that resolves every thrown
error to `[]`. -/
def searchMoviesByGenre (hasApiKey : Bool) (todaysDate : SimpleDate) (currentYear : ℤ)
    (cache : GenreCache) (genre : String) (options : GenreSearchOptions)
    (oracle : GenreFetchOracle) : Except String (List Movie) × GenreCache :=
  match GENRE_MAP genre with
  | none => (.ok [], cache)
  | some entry =>
    let genreIdArray :=
      match entry with
      | .single i => [i]
      | .merged ids => ids
    let cacheKey := genreCacheKey genreIdArray options
    match cacheLookup cache cacheKey with
    | some cached => (.ok cached, cache)
    | none =>
      match genreSearchBody hasApiKey todaysDate currentYear genreIdArray options oracle with
      | .ok (v, true) => (.ok v, cacheInsert cache cacheKey v)
      | .ok (v, false) => (.ok v, cache)
      | .error _ => (.ok [], cache)

/-- A credit entry from the person-credits endpoint. -/
structure CreditRec where
  id : ℤ
  job : String
  popularity : Option ℚ
deriving DecidableEq, Repr

structure PersonCredits where
  crew : List CreditRec
  cast : List CreditRec
deriving DecidableEq, Repr

/-- Oracle for a person query: the person-search response (list of person
ids), the credits response, and the per-index outcome of the detail
fetches. -/
structure PersonOracle where
  personSearch : FetchOutcome (List ℤ)
  credits : FetchOutcome PersonCredits
  details : ℕ → FetchOutcome RawMovie

/-- The `Promise.all` of per-credit detail fetches: every failure of an
individual detail fetch resolves to `null` (its own inner `try`), never
throws. -/
def fetchDetailsLoop (hasApiKey : Bool) (details : ℕ → FetchOutcome RawMovie) :
    ℕ → List CreditRec → List (Option Movie)
  | _, [] => []
  | i, _ :: rest =>
    (if !hasApiKey then none
     else
       match details i with
       | .success d => some (convertTMDBToMovieFormat d)
       | _ => none) :: fetchDetailsLoop hasApiKey details (i + 1) rest

def PersonCache := List (String × List Movie)

/-- The `try`-block of `searchMoviesByDirector`. -/
def directorSearchBody (hasApiKey : Bool) (todaysDate : SimpleDate) (currentYear : ℤ)
    (oracle : PersonOracle) : Except String (List Movie × Bool) :=
  if !hasApiKey then .ok ([], false)
  else
    match oracle.personSearch with
    | .netError => .error "fetch rejected"
    | .badStatus => .error "Person search failed"
    | .malformedJson => .error "malformed response"
    | .success persons =>
      match persons.head? with
      | none => .ok ([], false)
      | some _person =>
        match oracle.credits with
        | .netError => .error "fetch rejected"
        | .badStatus => .error "Person movies failed"
        | .malformedJson => .error "malformed response"
        | .success personData =>
          let directorMovies :=
            (personData.crew.filter (fun c => c.job = "Director")).take 20
          let moviesWithDetails :=
            fetchDetailsLoop hasApiKey oracle.details 0 (directorMovies.take 10)
          let movies := (moviesWithDetails.filterMap id).filter
            (personQueryFilter todaysDate currentYear)
          .ok (movies, true)

/-- Model of `searchMoviesByDirector` (cache key `director_${name.toLowerCase()}`). -/
def searchMoviesByDirector (hasApiKey : Bool) (todaysDate : SimpleDate) (currentYear : ℤ)
    (cache : PersonCache) (directorName : String) (oracle : PersonOracle) :
    Except String (List Movie) × PersonCache :=
  if directorName = "" then (.ok [], cache)
  else
    let cacheKey := "director_" ++ jsToLower directorName
    match cacheLookup cache cacheKey with
    | some cached => (.ok cached, cache)
    | none =>
      match directorSearchBody hasApiKey todaysDate currentYear oracle with
      | .ok (v, true) => (.ok v, cacheInsert cache cacheKey v)
      | .ok (v, false) => (.ok v, cache)
      | .error _ => (.ok [], cache)

/-- The `try`-block of `searchMoviesByActor`: credits are taken from `cast`,
sorted by popularity descending, top 20. -/
def actorSearchBody (hasApiKey : Bool) (todaysDate : SimpleDate) (currentYear : ℤ)
    (oracle : PersonOracle) : Except String (List Movie × Bool) :=
  if !hasApiKey then .ok ([], false)
  else
    match oracle.personSearch with
    | .netError => .error "fetch rejected"
    | .badStatus => .error "Person search failed"
    | .malformedJson => .error "malformed response"
    | .success persons =>
      match persons.head? with
      | none => .ok ([], false)
      | some _person =>
        match oracle.credits with
        | .netError => .error "fetch rejected"
        | .badStatus => .error "Person movies failed"
        | .malformedJson => .error "malformed response"
        | .success personData =>
          let actorMovies :=
            (sortByRel (fun a b => qle (jsOr0 b.popularity) (jsOr0 a.popularity))
              personData.cast).take 20
          let moviesWithDetails :=
            fetchDetailsLoop hasApiKey oracle.details 0 (actorMovies.take 10)
          let movies := (moviesWithDetails.filterMap id).filter
            (personQueryFilter todaysDate currentYear)
          .ok (movies, true)

/-- Model of `searchMoviesByActor` (cache key `actor_${name.toLowerCase()}`). -/
def searchMoviesByActor (hasApiKey : Bool) (todaysDate : SimpleDate) (currentYear : ℤ)
    (cache : PersonCache) (actorName : String) (oracle : PersonOracle) :
    Except String (List Movie) × PersonCache :=
  if actorName = "" then (.ok [], cache)
  else
    let cacheKey := "actor_" ++ jsToLower actorName
    match cacheLookup cache cacheKey with
    | some cached => (.ok cached, cache)
    | none =>
      match actorSearchBody hasApiKey todaysDate currentYear oracle with
      | .ok (v, true) => (.ok v, cacheInsert cache cacheKey v)
      | .ok (v, false) => (.ok v, cache)
      | .error _ => (.ok [], cache)

/-- Cache key of `searchMoviesInTMDB`: `search_${query.toLowerCase()}_${page}`
— `limit` is NOT part of the key, and a cache hit returns
`cached.slice(0, limit)`. -/
structure SearchKey where
  q : String
  page : ℤ
deriving DecidableEq, Repr

def SearchCache := List (SearchKey × List Movie)

/-- The `try`-block of `searchMoviesInTMDB`. -/
def tmdbSearchBody (hasApiKey : Bool) (todaysDate : SimpleDate) (currentYear : ℤ)
    (limit : ℕ) (oracle : FetchOutcome (List RawMovie)) :
    Except String (List Movie × Bool) :=
  if !hasApiKey then .ok ([], false)
  else
    match oracle with
    | .netError => .error "fetch rejected"
    | .badStatus => .error "API error"
    | .malformedJson => .error "malformed response"
    | .success data =>
      let movies := (((data.take (limit * 2)).map convertTMDBToMovieFormat).filter
        (titleQueryFilter todaysDate currentYear)).take limit
      .ok (movies, true)

/-- Model of `searchMoviesInTMDB`. -/
def searchMoviesInTMDB (hasApiKey : Bool) (todaysDate : SimpleDate) (currentYear : ℤ)
    (cache : SearchCache) (query : String) (page : ℤ) (limit : ℕ)
    (oracle : FetchOutcome (List RawMovie)) : Except String (List Movie) × SearchCache :=
  if jsTrim query = "" then (.ok [], cache)
  else
    let cacheKey : SearchKey := { q := jsToLower query, page := page }
    match cacheLookup cache cacheKey with
    | some cached => (.ok (cached.take limit), cache)
    | none =>
      match tmdbSearchBody hasApiKey todaysDate currentYear limit oracle with
      | .ok (v, true) => (.ok v, cacheInsert cache cacheKey v)
      | .ok (v, false) => (.ok v, cache)
      | .error _ => (.ok [], cache)

/-- Cache key of `getTopRatedMovies`:
`toprated_${sortBy || 'new_rated'}_${page}_${limit}_${old|new}`. -/
structure TopRatedKey where
  sortKey : String
  page : ℤ
  limit : ℕ
  old : Bool
deriving DecidableEq, Repr

def TopRatedCache := List (TopRatedKey × List Movie)

/-- The `try`-block of `getTopRatedMovies`. -/
def topRatedBody (hasApiKey : Bool) (todaysDate : SimpleDate) (currentYear : ℤ)
    (page : ℤ) (limit : ℕ) (sortBy : Option String)
    (oracle : FetchOutcome (List RawMovie)) : Except String (List Movie × Bool) :=
  let isDefaultSort := sortBy = none ∨ sortBy = some "new_most_rated"
  if !hasApiKey then .ok ([], false)
  else
    match oracle with
    | .netError => .error "fetch rejected"
    | .badStatus => .error "API error"
    | .malformedJson => .error "malformed response"
    | .success data =>
      let results := data
      let fetchLimit := min limit results.length
      let basicMovies := (results.take fetchLimit).map convertTMDBToMovieFormat
      let movies := basicMovies.filter (titleQueryFilter todaysDate currentYear)
      let movies :=
        if sortBy = some "most_liked" then sortMoviesByImdbDesc movies
        else if sortBy = some "most_rated" ∨ (sortBy = none ∧ page > 2) then
          sortMoviesByImdbDesc movies
        else if isDefaultSort then sortMoviesByImdbDesc movies
        else movies
      .ok (movies, true)

/-- Model of `getTopRatedMovies`. -/
def getTopRatedMovies (hasApiKey : Bool) (todaysDate : SimpleDate) (currentYear : ℤ)
    (cache : TopRatedCache) (page : ℤ) (limit : ℕ) (sortBy : Option String)
    (oracle : FetchOutcome (List RawMovie)) : Except String (List Movie) × TopRatedCache :=
  let isDefaultSort := sortBy = none ∨ sortBy = some "new_most_rated"
  let useOldMovies := isDefaultSort ∧ page > 2
  let cacheKey : TopRatedKey :=
    { sortKey := sortBy.getD "new_rated", page := page, limit := limit,
      old := decide useOldMovies }
  match cacheLookup cache cacheKey with
  | some cached => (.ok cached, cache)
  | none =>
    match topRatedBody hasApiKey todaysDate currentYear page limit sortBy oracle with
    | .ok (v, true) => (.ok v, cacheInsert cache cacheKey v)
    | .ok (v, false) => (.ok v, cache)
    | .error _ => (.ok [], cache)

/-! ### Recommendation assembler (`getRecommendedMovies` and helpers) -/

/-- Model of `mergeLocalAndAPIResults`: one `Map` keyed by
`title.toLowerCase().trim()`, locals inserted first, first occurrence wins;
`Array.from(map.values())` preserves first-insertion order. -/
def mergeLocalAndAPIResults (localMovies apiMovies : List Movie) : List Movie :=
  ((localMovies ++ apiMovies).foldl
    (fun (acc : List Movie × List String) movie =>
      let key := jsTrim (jsToLower movie.title)
      if acc.2.contains key then acc else (acc.1 ++ [movie], acc.2 ++ [key]))
    ([], [])).1

/-- A scored candidate: the movie object spread together with
`recommendationScore`, `recommendationRating`, `scoreBreakdown`. -/
structure ScoredMovie where
  movie : Movie
  recommendationScore : ℚ
  recommendationRating : ℚ
  scoreBreakdown : ScoreBreakdown
deriving DecidableEq, Repr

def favoriteIdsOf (favorites : List Movie) : List String := favorites.map (·.id)

def favoriteTitlesOf (favorites : List Movie) : List String :=
  favorites.map (fun f => jsTrim (jsToLower f.title))

/-- The watched-id exclusion set: `String(m)` for bare entries,
`String(m.id || m.tmdbId)` for movie entries. -/
def watchedIdsOf (watchedMovies : List WatchedEntry) : List String :=
  watchedMovies.map fun e =>
    match e with
    | .id s => s
    | .movie m => if m.id ≠ "" then m.id else m.tmdbId.getD "undefined"

/-- The watched-title exclusion set: titles of movie-object entries, plus
titles resolved from `allMoviesForLookup` for bare-id entries (the source's
second `forEach` compares `m.id === id` / `m.tmdbId === id`, which never
matches for object entries). -/
def watchedTitlesOf (watchedMovies : List WatchedEntry) (allMoviesForLookup : List Movie) :
    List String :=
  (watchedMovies.filterMap fun e =>
    match e with
    | .movie m => if m.title ≠ "" then some (jsTrim (jsToLower m.title)) else none
    | .id _ => none) ++
  (watchedMovies.filterMap fun e =>
    match e with
    | .id s =>
      match allMoviesForLookup.find? (fun m => m.id = s ∨ m.tmdbId = some s) with
      | some m => if m.title ≠ "" then some (jsTrim (jsToLower m.title)) else none
      | none => none
    | .movie _ => none)

/-- The favorite-exclusion test: canonical id, normalized title, or embedded
`localData.id` — the `tmdbId`/numeric-id forms are NOT consulted here. -/
def isFavoriteMovie (favoriteIds favoriteTitles : List String) (movie : Movie) : Bool :=
  favoriteIds.contains movie.id ||
  favoriteTitles.contains (jsTrim (jsToLower movie.title)) ||
  (match movie.localData with
   | some ld => favoriteIds.contains ld.id
   | none => false)

/-- The watched-exclusion test: `String(movie.id || movie.tmdbId || '')`, the
bare `tmdbId`, the numeric id with a `tmdb_` prefix stripped, the normalized
title, and the embedded `localData.id`. -/
def isWatchedMovie (watchedIds watchedTitles : List String) (movie : Movie) : Bool :=
  let movieId := if movie.id ≠ "" then movie.id else movie.tmdbId.getD ""
  let movieTmdbId := movie.tmdbId.getD ""
  let numericId := if strStartsWith movieId "tmdb_" then strDrop movieId 5 else movieId
  watchedIds.contains movieId ||
  watchedIds.contains movieTmdbId ||
  watchedIds.contains numericId ||
  watchedTitles.contains (jsTrim (jsToLower movie.title)) ||
  (match movie.localData with
   | some ld => watchedIds.contains ld.id
   | none => false)

/-- One iteration of the scan loop body: skip favorites/watched, score, keep
only positive scores. -/
def scoreGate (currentYear : ℤ) (favoriteIds favoriteTitles watchedIds watchedTitles : List String)
    (precomputedPrefs : PrecomputedPrefs) (movie : Movie) : Option ScoredMovie :=
  if isFavoriteMovie favoriteIds favoriteTitles movie ||
      isWatchedMovie watchedIds watchedTitles movie then none
  else
    let scoring := calculateRecommendationScore currentYear movie precomputedPrefs
    if qlt (mkRat 0 1) scoring.score then
      some { movie := movie, recommendationScore := scoring.score,
             recommendationRating := scoring.rating,
             scoreBreakdown := scoring.breakdown }
    else none

/-- The ranking comparator `(a, b) => b.score - a.score, ties b.rating -
a.rating` as a stable before-relation: `a` stays before `b` iff `a` scores
higher, or scores tie and `a`'s rating is at least `b`'s. -/
def scoredBefore (a b : ScoredMovie) : Bool :=
  if a.recommendationScore ≠ b.recommendationScore then
    qlt b.recommendationScore a.recommendationScore
  else qle b.recommendationRating a.recommendationRating

def sortScoredMovies (l : List ScoredMovie) : List ScoredMovie := sortByRel scoredBefore l

/-- Structural chunking of the candidate list into the `batchSize = 50`
slices visited by `for (let i = 0; i < allMovies.length; i += batchSize)`. -/
def chunkAux (batch : List Movie) (k : ℕ) : List Movie → List (List Movie)
  | [] => if batch.isEmpty then [] else [batch.reverse]
  | x :: xs =>
    if k + 1 = 50 then (x :: batch).reverse :: chunkAux [] 0 xs
    else chunkAux (x :: batch) (k + 1) xs

def chunksOf50 (l : List Movie) : List (List Movie) := chunkAux [] 0 l

/-- Result of the batched scan: `early` is the early-termination return (the
accumulated candidates, sorted and truncated, returned immediately —
bypassing the diversity pass), `full` is the accumulated candidate list when
the loop runs to completion. -/
inductive ScanOutcome where
  | early (result : List ScoredMovie)
  | full (scored : List ScoredMovie)
deriving DecidableEq, Repr

/-- Whether the scan ran to completion (i.e. the early-termination return was
not taken). -/
def ScanOutcome.isFull : ScanOutcome → Bool
  | .full _ => true
  | .early _ => false

/-- The batched scan with early termination: after each batch, if at least
`2 * limit` positive-score candidates have accumulated, sort and return the
top `limit` right away. -/
def batchScanChunks (gate : Movie → Option ScoredMovie) (limit : ℕ) :
    List (List Movie) → List ScoredMovie → ScanOutcome
  | [], acc => .full acc
  | batch :: restChunks, acc =>
    let acc' := acc ++ batch.filterMap gate
    if acc'.length ≥ 2 * limit then .early ((sortScoredMovies acc').take limit)
    else batchScanChunks gate limit restChunks acc'

/-- `Map.get(k) || 0` on the diversity counters. -/
def lookupCount : List (String × ℕ) → String → ℕ
  | [], _ => 0
  | p :: m, k => if p.1 = k then p.2 else lookupCount m k

/-- `Map.set(k, v)` on the diversity counters: replace the entry when
present, append otherwise. -/
def setCount : List (String × ℕ) → String → ℕ → List (String × ℕ)
  | [], k, v => [(k, v)]
  | p :: m, k, v => if p.1 = k then (k, v) :: m else p :: setCount m k v

/-- The director step of the diversity pass: for a truthy director, reject
(`none`) when its counter has reached 3, otherwise return the counters with
the director's counter incremented; movies without a (truthy) director skip
the check. -/
def directorGate (directorCount : List (String × ℕ)) (director : Option String) :
    Option (List (String × ℕ)) :=
  match truthyStr director with
  | some d =>
    let dirCount := lookupCount directorCount d
    if dirCount ≥ 3 then none
    else some (setCount directorCount d (dirCount + 1))
  | none => some directorCount

/-- Increment every cast member's counter (`movie.cast.forEach(...)`). -/
def bumpActors (actorCount : List (String × ℕ)) (cast : List String) :
    List (String × ℕ) :=
  cast.foldl (fun acc actor => setCount acc actor (lookupCount acc actor + 1)) actorCount

/-- The greedy diversity pass: walk the ranked list keeping per-director and
per-actor counters; drop a candidate whose (truthy) director has already
reached 3 accepted entries — this check increments the director counter even
when the candidate is subsequently rejected by the actor check — or any of
whose cast members has reached 2; an accepted candidate increments all its
cast members' counters. -/
def diversityFilter : List ScoredMovie → List (String × ℕ) → List (String × ℕ) →
    List ScoredMovie
  | [], _, _ => []
  | s :: rest, directorCount, actorCount =>
    match directorGate directorCount s.movie.director with
    | none => diversityFilter rest directorCount actorCount
    | some directorCount' =>
      if s.movie.cast ≠ [] then
        if s.movie.cast.any (fun actor => lookupCount actorCount actor ≥ 2) then
          diversityFilter rest directorCount' actorCount
        else
          s :: diversityFilter rest directorCount'
            (bumpActors actorCount s.movie.cast)
      else s :: diversityFilter rest directorCount' actorCount

/-- The candidate list scanned by the loop: normalized local movies, merged
with the API fan-out results when `useAPI` succeeds, local-only on a fan-out
rejection (the `try`/`catch` fallback). -/
def recommendationCandidates (localMovies : List LocalMovie) (useAPI : Bool)
    (apiFetch : Except String (List Movie)) : List Movie :=
  let normalizedLocalMovies := localMovies.map normalizeLocalToAPI
  if useAPI then
    match apiFetch with
    | .ok apiMovies => mergeLocalAndAPIResults normalizedLocalMovies apiMovies
    | .error _ => normalizedLocalMovies
  else normalizedLocalMovies

/-- The per-movie exclusion-and-scoring step with all its set arguments built
from the assembler inputs. -/
def recommendationGate (currentYear : ℤ) (favorites : List Movie)
    (watchedMovies : List WatchedEntry) (allMoviesForLookup : List Movie)
    (userRatings : List (String × ℚ)) : Movie → Option ScoredMovie :=
  scoreGate currentYear (favoriteIdsOf favorites) (favoriteTitlesOf favorites)
    (watchedIdsOf watchedMovies) (watchedTitlesOf watchedMovies allMoviesForLookup)
    (precomputePreferences
      (extractUserPreferences favorites watchedMovies allMoviesForLookup userRatings))

/-- The scan-rank-diversify-truncate tail of `getRecommendedMovies`: run the
batched scan over the candidate list; on early termination return its result
directly (no diversity pass), otherwise sort, apply the diversity pass and
truncate to `limit`. -/
def assembleFromCandidates (gate : Movie → Option ScoredMovie) (limit : ℕ)
    (allMovies : List Movie) : List ScoredMovie :=
  match batchScanChunks gate limit (chunksOf50 allMovies) [] with
  | .early result => result
  | .full scoredMovies =>
    (diversityFilter (sortScoredMovies scoredMovies) [] []).take limit

/-- Model of `getRecommendedMovies`.  `apiFetch` is the outcome of the awaited
`fetchAPIRecommendations` fan-out (whose own `try`/`catch` makes it a resolved
list or a rejection); the `try`/`catch` around the merge is the `match`:
a rejection falls back to the local-only candidate list.  The in-source
normalization loop re-assigns `director`/`cast`/`imdb`/`genre` from the local
record onto the result of `normalizeLocalToAPI`, which already carries exactly
those values, so plain `normalizeLocalToAPI` is used.
`verifyAlgorithmCorrectness` (DEV-only console logging) is omitted. -/
def getRecommendedMovies (currentYear : ℤ) (localMovies : List LocalMovie)
    (favorites : List Movie) (useAPI : Bool) (limit : ℕ)
    (watchedMovies : List WatchedEntry) (allMoviesForLookup : List Movie)
    (userRatings : List (String × ℚ)) (apiFetch : Except String (List Movie)) :
    List ScoredMovie :=
  if favorites = [] ∧ watchedMovies = [] then []
  else
    let preferences := extractUserPreferences favorites watchedMovies
      allMoviesForLookup userRatings
    if preferences.genres = [] ∧ preferences.directors = [] ∧ preferences.actors = [] then []
    else
      assembleFromCandidates
        (recommendationGate currentYear favorites watchedMovies allMoviesForLookup userRatings)
        limit (recommendationCandidates localMovies useAPI apiFetch)

/-! ### Lemmas: the ranking comparator -/

/-- The ordering the spec asserts for assembled output: score strictly
descending, ties broken by rating descending. -/
def scoredRel (a b : ScoredMovie) : Prop :=
  b.recommendationScore < a.recommendationScore ∨
    (a.recommendationScore = b.recommendationScore ∧
      b.recommendationRating ≤ a.recommendationRating)

/-! ### Concrete inputs used by the claim counterexamples and witnesses -/

instance : Inhabited ScoredMovie :=
  ⟨{ movie := emptyMovie
     recommendationScore := mkRat 0 1
     recommendationRating := mkRat 0 1
     scoreBreakdown :=
       { genreHighScore := false
         genreMatch := false
         directorMatch := false
         actorMatch := false
         multipleMatches := false } }⟩

def c1Favorite : Movie := { emptyMovie with
  id := "f1"
  title := "Fav One"
  genre := some "Drama"
  imdb := some (mkRat 8 1) }

def c1Prefs : PrecomputedPrefs :=
  precomputePreferences (extractUserPreferences [c1Favorite] [] [] [("m1", mkRat 4 1)])

def c1Candidate : Movie := { emptyMovie with
  id := "c1"
  title := "Candidate One"
  genre := some "Komedi"
  director := some "Nobody Known"
  cast := ["Unseen Actor"]
  imdb := some (mkRat 21 5)
  year := some 2024 }

def c1wPrefs : PrecomputedPrefs :=
  { genres := [normalizeString "Drama"], directors := ["jane smith"], actors := ["john actor"],
    minRating := mkRat 15 2, userAvgRating := none,
    genreFrequency := [("Drama", mkRat 1 1)], directorFrequency := [],
    actorFrequency := [] }

def c1wMovie : Movie := { emptyMovie with
  id := "w1"
  title := "Witness One"
  genre := some "Korku"
  imdb := some (mkRat 8 1) }

def c5Movie : Movie := { emptyMovie with
  id := "c5"
  title := "Candidate Five"
  imdb := some (mkRat 8 1)
  year := some 2024 }

def c5Prefs : PrecomputedPrefs :=
  { genres := [], directors := [], actors := [], minRating := mkRat 0 1,
    userAvgRating := none, genreFrequency := [], directorFrequency := [],
    actorFrequency := [] }

def c5wMovie : Movie := { emptyMovie with
  id := "w5"
  title := "Witness Five"
  imdb := some (mkRat 8 1) }

def c2Favorite : Movie := { emptyMovie with
  id := "f2"
  title := "Fav Two"
  genre := some "Drama"
  imdb := some (mkRat 17 2) }

def c2Locals : List LocalMovie :=
  (List.range 8).map fun n =>
    { id := toString n, title := "M" ++ toString n, year := none,
      genre := some "Drama", imdb := some (mkRat 8 1),
      director := some "D", cast := [] }

def c2Output : List ScoredMovie :=
  getRecommendedMovies 2026 c2Locals [c2Favorite] false 4 [] [] [] (.ok [])

def c2wLocal : LocalMovie :=
  { id := "20", title := "Lone Drama", year := none, genre := some "Drama",
    imdb := some (mkRat 8 1), director := some "D", cast := ["A"] }

def c3Favorite : Movie := { emptyMovie with
  id := "123"
  title := "Fav Three"
  genre := some "Drama"
  imdb := some (mkRat 17 2) }

def c3ApiMovie : Movie := { emptyMovie with
  id := "tmdb_123"
  tmdbId := some "123"
  title := "Other Title"
  genre := some "Drama"
  imdb := some (mkRat 8 1) }

def c3Output : List ScoredMovie :=
  getRecommendedMovies 2026 [] [c3Favorite] true 20 [] [] [] (.ok [c3ApiMovie])

def c3wFavorite : Movie := { emptyMovie with
  id := "f3"
  title := "Fav Three W"
  genre := some "Drama"
  imdb := some (mkRat 17 2) }

def c3wLocal : LocalMovie :=
  { id := "31", title := "Local Drama", year := none, genre := some "Drama",
    imdb := some (mkRat 8 1), director := none, cast := [] }

def c3wOutput : List ScoredMovie :=
  getRecommendedMovies 2026 [c3wLocal] [c3wFavorite] false 20 [] [] [] (.ok [])

/-- The exclusion facts guaranteed for every assembled output movie (used to
state C3). -/
def exclusionInvariant (favorites : List Movie) (watchedMovies : List WatchedEntry)
    (allMoviesForLookup : List Movie) (m : Movie) : Prop :=
  (m.id ∉ favoriteIdsOf favorites ∧
   jsTrim (jsToLower m.title) ∉ favoriteTitlesOf favorites ∧
   (∀ ld, m.localData = some ld → ld.id ∉ favoriteIdsOf favorites)) ∧
  ((if m.id ≠ "" then m.id else m.tmdbId.getD "") ∉ watchedIdsOf watchedMovies ∧
   m.tmdbId.getD "" ∉ watchedIdsOf watchedMovies ∧
   (if strStartsWith (if m.id ≠ "" then m.id else m.tmdbId.getD "") "tmdb_"
      then strDrop (if m.id ≠ "" then m.id else m.tmdbId.getD "") 5
      else (if m.id ≠ "" then m.id else m.tmdbId.getD "")) ∉ watchedIdsOf watchedMovies ∧
   jsTrim (jsToLower m.title) ∉ watchedTitlesOf watchedMovies allMoviesForLookup ∧
   (∀ ld, m.localData = some ld → ld.id ∉ watchedIdsOf watchedMovies))

/-! ### Claim C8 -/

def c8Today : SimpleDate := ⟨2026, 1, 1⟩

/-- A raw TMDB record whose only genre is Family (10751). -/
def c8RawFam : RawMovie :=
  { id := 1
    title := some "Family Flick"
    original_title := none
    release_date := some ⟨2020, 5, 1⟩
    genre_ids := some [10751]
    genres := none
    vote_average := some (mkRat 7 1)
    popularity := none
    director := some "John Doe"
    castNames := []
    original_language := some "en" }

/-- A raw TMDB record with an empty genre-id array. -/
def c8RawEmpty : RawMovie :=
  { id := 2
    title := some "No Genres"
    original_title := none
    release_date := some ⟨2019, 5, 1⟩
    genre_ids := some []
    genres := none
    vote_average := some (mkRat 8 1)
    popularity := none
    director := some "John Doe"
    castNames := []
    original_language := some "en" }

def c8Oracle : PersonOracle :=
  { personSearch := .success [5]
    credits := .success ⟨[⟨77, "Director", none⟩, ⟨78, "Director", none⟩], []⟩
    details := fun i =>
      if i = 0 then .success c8RawFam
      else if i = 1 then .success c8RawEmpty
      else .netError }

/-! ### Claim C9 -/

/-- The genre-id array a `GENRE_MAP` entry resolves to (inlined in
`searchMoviesByGenre`). -/
def genreEntryIds (entry : GenreMapEntry) : List ℤ :=
  match entry with
  | .single i => [i]
  | .merged ids => ids

def c9Today : SimpleDate := ⟨2026, 1, 1⟩

def c9RawA : RawMovie :=
  { id := 1
    title := some "Comedy A"
    original_title := none
    release_date := some ⟨2020, 5, 1⟩
    genre_ids := some [35]
    genres := none
    vote_average := some (mkRat 9 1)
    popularity := none
    director := none
    castNames := []
    original_language := some "en" }

def c9RawB : RawMovie :=
  { id := 2
    title := some "Comedy B"
    original_title := none
    release_date := some ⟨2019, 5, 1⟩
    genre_ids := some [35]
    genres := none
    vote_average := some (mkRat 8 1)
    popularity := none
    director := none
    castNames := []
    original_language := some "en" }

def c9Oracle : GenreFetchOracle :=
  { primary := .success [c9RawA, c9RawB]
    secondary := .netError }

def c9Opts1 : GenreSearchOptions := { limit := 1 }

def c9Opts2 : GenreSearchOptions := { limit := 2 }

def c9Run1 : Except String (List Movie) × GenreCache :=
  searchMoviesByGenre true c9Today 2026 [] "Komedi" c9Opts1 c9Oracle

def c9Run2 : Except String (List Movie) × GenreCache :=
  searchMoviesByGenre true c9Today 2026 c9Run1.2 "Komedi" c9Opts2 c9Oracle

def c9Fresh2 : Except String (List Movie) × GenreCache :=
  searchMoviesByGenre true c9Today 2026 [] "Komedi" c9Opts2 c9Oracle

def c6wFavorite : Movie := { emptyMovie with
  id := "f6"
  title := "Fav Six"
  genre := some "Drama"
  imdb := some (mkRat 8 1) }

/-! ### Claim C7 -/

/-- Modelled from the spec's words (§4.4 steps 4–5), for comparison with the
code: the baseline is the average of the explicit user ratings when at least
one lies in [0.5, 5]; otherwise the weighted average of the movies' own
ratings in which a favorite's rating carries weight 1.5 and a watched-only
rating weight 1, i.e. `(1.5·Σfav + Σwatch) / (1.5·nfav + nwatch)`;
`minRating = max(7.5, baseline − 0.5)`. -/
def specMinRating (favorites watchedMoviesData : List Movie)
    (userRatings : List (String × ℚ)) : ℚ :=
  let favRaw := (favorites.filterMap (·.imdb)).filter (fun r => qlt (mkRat 0 1) r)
  let watchRaw := (watchedMoviesData.filterMap (·.imdb)).filter
    (fun r => qlt (mkRat 0 1) r)
  let explicit := userRatingValuesOf userRatings
  let baseline :=
    if explicit.length ≠ 0 then qdiv (qsum explicit) (mkRat explicit.length 1)
    else qdiv (qadd (qmul (mkRat 3 2) (qsum favRaw)) (qsum watchRaw))
      (qadd (qmul (mkRat 3 2) (mkRat favRaw.length 1)) (mkRat watchRaw.length 1))
  qmax (mkRat 15 2) (qsub baseline (mkRat 1 2))

def c7Favorite : Movie := { emptyMovie with
  id := "f7"
  title := "Fav Seven"
  genre := some "Drama"
  imdb := some (mkRat 9 1) }

def c7Watched : Movie := { emptyMovie with
  id := "w7"
  title := "Watched Seven"
  genre := some "Komedi"
  imdb := some (mkRat 6 1) }

theorem qneg_eq (a : ℚ) : qneg a = -a := by
  rw [qneg, Rat.mkRat_eq_divInt, ← Rat.neg_divInt, Rat.num_divInt_den]

theorem qadd_eq (a b : ℚ) : qadd a b = a + b := by
  have ha : (a.den : ℤ) ≠ 0 := by exact_mod_cast a.den_ne_zero
  have hb : (b.den : ℤ) ≠ 0 := by exact_mod_cast b.den_ne_zero
  rw [qadd, Rat.mkRat_eq_divInt]
  conv_rhs => rw [← Rat.num_divInt_den a, ← Rat.num_divInt_den b,
    Rat.divInt_add_divInt _ _ ha hb]
  congr 1

theorem qsub_eq (a b : ℚ) : qsub a b = a - b := by
  rw [qsub, qadd_eq, qneg_eq, sub_eq_add_neg]

theorem qmul_eq (a b : ℚ) : qmul a b = a * b := by
  rw [qmul, Rat.mkRat_eq_divInt]
  conv_rhs => rw [← Rat.num_divInt_den a, ← Rat.num_divInt_den b, Rat.divInt_mul_divInt']
  congr 1

theorem qdiv_eq (a b : ℚ) : qdiv a b = a / b := by
  rw [qdiv, Rat.div_def']
  rcases lt_or_le b.num 0 with h | h
  · rw [if_pos h, Rat.mkRat_eq_divInt]
    have hna : (b.num.natAbs : ℤ) = -b.num := by omega
    have hd : ((a.den * b.num.natAbs : ℕ) : ℤ) = -((a.den : ℤ) * b.num) := by
      push_cast [hna]
      ring
    conv_rhs => rw [show (a.den : ℤ) * b.num = -((a.den * b.num.natAbs : ℕ) : ℤ) by
      rw [hd]; ring]
    rw [Rat.divInt_neg]
  · rw [if_neg (not_lt.mpr h), Rat.mkRat_eq_divInt]
    congr 1
    push_cast
    rw [abs_of_nonneg h]

theorem qle_iff (a b : ℚ) : qle a b = true ↔ a ≤ b := by
  rw [qle, Rat.le_def]
  exact decide_eq_true_iff

theorem qlt_iff (a b : ℚ) : qlt a b = true ↔ a < b := by
  rw [qlt, Rat.lt_def]
  exact decide_eq_true_iff

theorem qabs_eq (a : ℚ) : qabs a = |a| := by
  rcases lt_or_le a.num 0 with h | h
  · rw [qabs, if_pos h, qneg_eq, abs_of_neg (Rat.num_neg.mp h)]
  · rw [qabs, if_neg (not_lt.mpr h), abs_of_nonneg (Rat.num_nonneg.mp h)]

theorem qmax_eq (a b : ℚ) : qmax a b = max a b := by
  rw [qmax, max_def]
  by_cases h : a ≤ b
  · rw [if_pos ((qle_iff a b).mpr h), if_pos h]
  · rw [if_neg (fun hc => h ((qle_iff a b).mp hc)), if_neg h]

theorem qmin_eq (a b : ℚ) : qmin a b = min a b := by
  rw [qmin, min_def]
  by_cases h : a ≤ b
  · rw [if_pos ((qle_iff a b).mpr h), if_pos h]
  · rw [if_neg (fun hc => h ((qle_iff a b).mp hc)), if_neg h]

/-! ### Lemmas: insertion sort -/

theorem mem_insertSorted (le : α → α → Bool) (a x : α) (l : List α) :
    x ∈ insertSorted le a l ↔ x = a ∨ x ∈ l := by
  induction l with
  | nil => simp [insertSorted]
  | cons b t ih =>
    by_cases h : le a b = true
    · simp [insertSorted, h]
    · simp only [insertSorted, h]
      simp only [Bool.false_eq_true, if_false, List.mem_cons, ih]
      tauto

theorem insertSorted_perm (le : α → α → Bool) (a : α) (l : List α) :
    List.Perm (insertSorted le a l) (a :: l) := by
  induction l with
  | nil => exact List.Perm.refl _
  | cons b t ih =>
    by_cases h : le a b = true
    · rw [insertSorted, if_pos h]
    · rw [insertSorted, if_neg h]
      exact (ih.cons b).trans (List.Perm.swap a b t)

theorem sortByRel_perm (le : α → α → Bool) (l : List α) :
    List.Perm (sortByRel le l) l := by
  induction l with
  | nil => exact List.Perm.refl _
  | cons a t ih =>
    exact (insertSorted_perm le a (sortByRel le t)).trans (ih.cons a)

theorem insertSorted_pairwise (le : α → α → Bool)
    (htrans : ∀ a b c, le a b = true → le b c = true → le a c = true)
    (htotal : ∀ a b, le a b = true ∨ le b a = true) (a : α) (l : List α)
    (hl : l.Pairwise (fun x y => le x y = true)) :
    (insertSorted le a l).Pairwise (fun x y => le x y = true) := by
  induction l with
  | nil => simp [insertSorted]
  | cons b t ih =>
    rw [List.pairwise_cons] at hl
    obtain ⟨hb, ht⟩ := hl
    by_cases h : le a b = true
    · rw [insertSorted, if_pos h, List.pairwise_cons]
      refine ⟨?_, List.pairwise_cons.mpr ⟨hb, ht⟩⟩
      intro y hy
      rcases List.mem_cons.mp hy with rfl | hyt
      · exact h
      · exact htrans a b y h (hb y hyt)
    · rw [insertSorted, if_neg h, List.pairwise_cons]
      refine ⟨?_, ih ht⟩
      intro y hy
      rcases (mem_insertSorted le a y t).mp hy with hya | hyt
      · subst hya
        rcases htotal y b with hab | hba
        · exact absurd hab h
        · exact hba
      · exact hb y hyt

theorem sortByRel_pairwise (le : α → α → Bool)
    (htrans : ∀ a b c, le a b = true → le b c = true → le a c = true)
    (htotal : ∀ a b, le a b = true ∨ le b a = true) (l : List α) :
    (sortByRel le l).Pairwise (fun x y => le x y = true) := by
  induction l with
  | nil => simp [sortByRel]
  | cons a t ih => exact insertSorted_pairwise le htrans htotal a _ ih

theorem scoredBefore_iff (a b : ScoredMovie) : scoredBefore a b = true ↔ scoredRel a b := by
  unfold scoredBefore scoredRel
  by_cases h : a.recommendationScore = b.recommendationScore
  · rw [if_neg (by simp [h]), qle_iff]
    constructor
    · intro hr
      exact Or.inr ⟨h, hr⟩
    · rintro (hlt | ⟨-, hr⟩)
      · exact absurd (h ▸ hlt) (lt_irrefl _)
      · exact hr
  · rw [if_pos h, qlt_iff]
    constructor
    · intro hr
      exact Or.inl hr
    · rintro (hlt | ⟨heq, -⟩)
      · exact hlt
      · exact absurd heq h

theorem scoredBefore_trans (a b c : ScoredMovie)
    (hab : scoredBefore a b = true) (hbc : scoredBefore b c = true) :
    scoredBefore a c = true := by
  rw [scoredBefore_iff] at hab hbc ⊢
  rcases hab with h1 | ⟨e1, r1⟩
  · rcases hbc with h2 | ⟨e2, r2⟩
    · exact Or.inl (h2.trans h1)
    · exact Or.inl (e2 ▸ h1)
  · rcases hbc with h2 | ⟨e2, r2⟩
    · exact Or.inl (by rw [e1]; exact h2)
    · exact Or.inr ⟨e1.trans e2, r2.trans r1⟩

theorem scoredBefore_total (a b : ScoredMovie) :
    scoredBefore a b = true ∨ scoredBefore b a = true := by
  rw [scoredBefore_iff, scoredBefore_iff]
  rcases lt_trichotomy a.recommendationScore b.recommendationScore with h | h | h
  · exact Or.inr (Or.inl h)
  · rcases le_total a.recommendationRating b.recommendationRating with hr | hr
    · exact Or.inr (Or.inr ⟨h.symm, hr⟩)
    · exact Or.inl (Or.inr ⟨h, hr⟩)
  · exact Or.inl (Or.inl h)

theorem sortScoredMovies_perm (l : List ScoredMovie) :
    List.Perm (sortScoredMovies l) l :=
  sortByRel_perm scoredBefore l

theorem sortScoredMovies_pairwise (l : List ScoredMovie) :
    (sortScoredMovies l).Pairwise scoredRel := by
  have h := sortByRel_pairwise scoredBefore scoredBefore_trans scoredBefore_total l
  exact h.imp (fun hxy => (scoredBefore_iff _ _).mp hxy)

/-! ### Lemmas: the batched scan -/

theorem batchScanChunks_early_shape (gate : Movie → Option ScoredMovie) (limit : ℕ) :
    ∀ (chunks : List (List Movie)) (acc : List ScoredMovie) (res : List ScoredMovie),
      batchScanChunks gate limit chunks acc = .early res →
      ∃ acc', res = (sortScoredMovies acc').take limit := by
  intro chunks
  induction chunks with
  | nil =>
    intro acc res h
    simp [batchScanChunks] at h
  | cons batch rest ih =>
    intro acc res h
    rw [batchScanChunks] at h
    by_cases hc : (acc ++ batch.filterMap gate).length ≥ 2 * limit
    · rw [if_pos hc] at h
      exact ⟨acc ++ batch.filterMap gate, (ScanOutcome.early.injEq _ _).mp h |>.symm⟩
    · rw [if_neg hc] at h
      exact ih _ _ h

theorem batchScanChunks_inv (gate : Movie → Option ScoredMovie) (limit : ℕ)
    (P : ScoredMovie → Prop) (hgate : ∀ m s, gate m = some s → P s) :
    ∀ (chunks : List (List Movie)) (acc : List ScoredMovie), (∀ s ∈ acc, P s) →
      (∀ res, batchScanChunks gate limit chunks acc = .early res → ∀ s ∈ res, P s) ∧
      (∀ sc, batchScanChunks gate limit chunks acc = .full sc → ∀ s ∈ sc, P s) := by
  intro chunks
  induction chunks with
  | nil =>
    intro acc hacc
    constructor
    · intro res h
      simp [batchScanChunks] at h
    · intro sc h
      rw [batchScanChunks] at h
      cases h
      exact hacc
  | cons batch rest ih =>
    intro acc hacc
    have hacc' : ∀ s ∈ acc ++ batch.filterMap gate, P s := by
      intro s hs
      rcases List.mem_append.mp hs with hs | hs
      · exact hacc s hs
      · obtain ⟨m, _, hm⟩ := List.mem_filterMap.mp hs
        exact hgate m s hm
    constructor
    · intro res h
      rw [batchScanChunks] at h
      by_cases hc : (acc ++ batch.filterMap gate).length ≥ 2 * limit
      · rw [if_pos hc] at h
        cases h
        intro s hs
        have hs' : s ∈ sortScoredMovies (acc ++ batch.filterMap gate) :=
          (List.take_sublist _ _).mem hs
        exact hacc' s ((sortScoredMovies_perm _).mem_iff.mp hs')
      · rw [if_neg hc] at h
        exact (ih _ hacc').1 res h
    · intro sc h
      rw [batchScanChunks] at h
      by_cases hc : (acc ++ batch.filterMap gate).length ≥ 2 * limit
      · rw [if_pos hc] at h
        cases h
      · rw [if_neg hc] at h
        exact (ih _ hacc').2 sc h

/-! ### Lemmas: the diversity pass -/

theorem lookupCount_setCount_self (m : List (String × ℕ)) (k : String) (v : ℕ) :
    lookupCount (setCount m k v) k = v := by
  induction m with
  | nil => simp [setCount, lookupCount]
  | cons p t ih =>
    by_cases h : p.1 = k
    · rw [setCount, if_pos h, lookupCount, if_pos rfl]
    · rw [setCount, if_neg h, lookupCount, if_neg h]
      exact ih

theorem lookupCount_setCount_other (m : List (String × ℕ)) (k k' : String) (v : ℕ)
    (h : k' ≠ k) : lookupCount (setCount m k v) k' = lookupCount m k' := by
  induction m with
  | nil =>
    have hne : ¬(k = k') := fun hk => h hk.symm
    simp [setCount, lookupCount, hne]
  | cons p t ih =>
    by_cases hp : p.1 = k
    · rw [setCount, if_pos hp, lookupCount, if_neg (fun hk => h hk.symm),
        lookupCount, if_neg (by rw [hp]; exact fun hk => h hk.symm)]
    · rw [setCount, if_neg hp, lookupCount, lookupCount]
      by_cases hp' : p.1 = k'
      · rw [if_pos hp', if_pos hp']
      · rw [if_neg hp', if_neg hp']
        exact ih

theorem lookupCount_setCount_ge (m : List (String × ℕ)) (k k' : String) (v : ℕ)
    (hv : lookupCount m k ≤ v) : lookupCount m k' ≤ lookupCount (setCount m k v) k' := by
  by_cases h : k' = k
  · subst h
    rw [lookupCount_setCount_self]
    exact hv
  · rw [lookupCount_setCount_other m k k' v h]

theorem lookupCount_bumpActors (ac : List (String × ℕ)) (cast : List String) (a : String) :
    lookupCount (bumpActors ac cast) a = lookupCount ac a + cast.count a := by
  induction cast generalizing ac with
  | nil => simp [bumpActors]
  | cons c cs ih =>
    rw [bumpActors, List.foldl_cons]
    have : (cs.foldl (fun acc actor => setCount acc actor (lookupCount acc actor + 1))
        (setCount ac c (lookupCount ac c + 1))) = bumpActors (setCount ac c (lookupCount ac c + 1)) cs := rfl
    rw [this, ih]
    by_cases h : a = c
    · subst h
      rw [lookupCount_setCount_self, List.count_cons_self]
      omega
    · rw [lookupCount_setCount_other _ _ _ _ h, List.count_cons_of_ne h]

/-- Specification of a passing director gate. -/
theorem directorGate_some_spec (dc : List (String × ℕ)) (dir : Option String)
    (dc' : List (String × ℕ)) (h : directorGate dc dir = some dc') :
    (truthyStr dir = none ∧ dc' = dc) ∨
    (∃ d₀, truthyStr dir = some d₀ ∧ lookupCount dc d₀ < 3 ∧
      dc' = setCount dc d₀ (lookupCount dc d₀ + 1)) := by
  unfold directorGate at h
  cases htd : truthyStr dir with
  | none =>
    rw [htd] at h
    have h' : some dc = some dc' := h
    cases h'
    exact Or.inl ⟨rfl, rfl⟩
  | some d₀ =>
    rw [htd] at h
    have h' : (if lookupCount dc d₀ ≥ 3 then (none : Option (List (String × ℕ)))
        else some (setCount dc d₀ (lookupCount dc d₀ + 1))) = some dc' := h
    by_cases h3 : lookupCount dc d₀ ≥ 3
    · rw [if_pos h3] at h'
      cases h'
    · rw [if_neg h3] at h'
      cases h'
      exact Or.inr ⟨d₀, rfl, by omega, rfl⟩

/-- A passing director gate never decreases any counter. -/
theorem directorGate_mono (dc : List (String × ℕ)) (dir : Option String)
    (dc' : List (String × ℕ)) (h : directorGate dc dir = some dc') (d : String) :
    lookupCount dc d ≤ lookupCount dc' d := by
  rcases directorGate_some_spec dc dir dc' h with ⟨-, rfl⟩ | ⟨d₀, -, -, rfl⟩
  · exact le_refl _
  · exact lookupCount_setCount_ge dc d₀ d _ (by omega)

theorem diversityFilter_sublist (l : List ScoredMovie) :
    ∀ dc ac, (diversityFilter l dc ac).Sublist l := by
  induction l with
  | nil => intro dc ac; simp [diversityFilter]
  | cons s rest ih =>
    intro dc ac
    rw [diversityFilter]
    split
    · exact (ih dc ac).cons s
    next dc' hdg =>
      by_cases hc : s.movie.cast ≠ []
      · rw [if_pos hc]
        by_cases ha : (s.movie.cast.any fun actor => decide (lookupCount ac actor ≥ 2)) = true
        · rw [if_pos ha]
          exact (ih dc' ac).cons s
        · rw [if_neg ha]
          exact (ih dc' (bumpActors ac s.movie.cast)).cons₂ s
      · rw [if_neg hc]
        exact (ih dc' ac).cons₂ s

/-- Director cap: the filtered list contains at most `3 - (current counter)`
entries credited to any (non-empty) director name. -/
theorem diversityFilter_director_count (d : String) (hd : d ≠ "") (l : List ScoredMovie) :
    ∀ dc ac, (diversityFilter l dc ac).countP (fun s => s.movie.director = some d) ≤
      3 - lookupCount dc d := by
  induction l with
  | nil => intro dc ac; simp [diversityFilter]
  | cons s rest ih =>
    intro dc ac
    rw [diversityFilter]
    split
    · exact ih dc ac
    next dc' hdg =>
      have hmono : lookupCount dc d ≤ lookupCount dc' d := directorGate_mono dc _ dc' hdg d
      have hrej : ∀ ac', (diversityFilter rest dc' ac').countP
          (fun s => s.movie.director = some d) ≤ 3 - lookupCount dc d := by
        intro ac'
        exact le_trans (ih dc' ac') (by omega)
      have haccept : ∀ ac', (s :: diversityFilter rest dc' ac').countP
          (fun s => s.movie.director = some d) ≤ 3 - lookupCount dc d := by
        intro ac'
        rw [List.countP_cons]
        by_cases hpd : s.movie.director = some d
        · rcases directorGate_some_spec dc _ dc' hdg with ⟨htd, rfl⟩ | ⟨d₀, htd, h3, rfl⟩
          · rw [hpd] at htd
            have htd' : (if d = "" then (none : Option String) else some d) = none := htd
            rw [if_neg hd] at htd'
            cases htd'
          · rw [hpd] at htd
            have htd' : (if d = "" then (none : Option String) else some d) = some d₀ := htd
            rw [if_neg hd] at htd'
            cases htd'
            have hself : lookupCount (setCount dc d (lookupCount dc d + 1)) d =
                lookupCount dc d + 1 := lookupCount_setCount_self dc d _
            have := ih (setCount dc d (lookupCount dc d + 1)) ac'
            rw [hself] at this
            have hb : (decide (s.movie.director = some d)) = true := decide_eq_true hpd
            rw [hb, if_pos rfl]
            omega
        · have hb : (decide (s.movie.director = some d)) = false := decide_eq_false hpd
          rw [hb, if_neg Bool.false_ne_true]
          have := ih dc' ac'
          omega
      by_cases hc : s.movie.cast ≠ []
      · rw [if_pos hc]
        by_cases ha : (s.movie.cast.any fun actor => decide (lookupCount ac actor ≥ 2)) = true
        · rw [if_pos ha]
          exact hrej ac
        · rw [if_neg ha]
          exact haccept (bumpActors ac s.movie.cast)
      · rw [if_neg hc]
        exact haccept ac

/-- Actor cap: the filtered list contains at most `2 - (current counter)`
entries whose cast includes any given name. -/
theorem diversityFilter_actor_count (a : String) (l : List ScoredMovie) :
    ∀ dc ac, (diversityFilter l dc ac).countP (fun s => s.movie.cast.contains a) ≤
      2 - lookupCount ac a := by
  induction l with
  | nil => intro dc ac; simp [diversityFilter]
  | cons s rest ih =>
    intro dc ac
    rw [diversityFilter]
    split
    · exact ih dc ac
    next dc' hdg =>
      by_cases hc : s.movie.cast ≠ []
      · rw [if_pos hc]
        by_cases ha : (s.movie.cast.any fun actor => decide (lookupCount ac actor ≥ 2)) = true
        · rw [if_pos ha]
          exact ih dc' ac
        · rw [if_neg ha]
          rw [List.countP_cons]
          by_cases hmem : s.movie.cast.contains a = true
          · have hmem' : a ∈ s.movie.cast := by
              simpa using hmem
            have hlt : lookupCount ac a < 2 := by
              by_contra hge
              apply ha
              rw [List.any_eq_true]
              exact ⟨a, hmem', decide_eq_true (by omega)⟩
            have hcnt : 1 ≤ s.movie.cast.count a := List.one_le_count_iff.mpr hmem'
            have := ih dc' (bumpActors ac s.movie.cast)
            rw [lookupCount_bumpActors] at this
            rw [hmem, if_pos rfl]
            omega
          · have hcnt0 : s.movie.cast.count a = 0 := by
              rw [List.count_eq_zero]
              simpa using hmem
            have := ih dc' (bumpActors ac s.movie.cast)
            rw [lookupCount_bumpActors, hcnt0] at this
            rw [if_neg hmem]
            omega
      · rw [if_neg hc]
        rw [List.countP_cons]
        have hc' : s.movie.cast = [] := by
          by_contra hne
          exact hc hne
        have hmem : s.movie.cast.contains a = false := by
          rw [hc']
          rfl
        rw [hmem, if_neg Bool.false_ne_true]
        have := ih dc' ac
        omega

/-! ### Lemmas: the assembler pipeline -/

theorem mkRat_div (n : ℤ) (d : ℕ) : mkRat n d = (n : ℚ) / (d : ℚ) := by
  rw [Rat.mkRat_eq_divInt, Rat.divInt_eq_div]
  norm_cast

theorem strListContains_iff (l : List String) (x : String) :
    l.contains x = true ↔ x ∈ l := by
  induction l with
  | nil => simp
  | cons a t ih =>
    show ((x == a) || t.contains x) = true ↔ x ∈ a :: t
    rw [Bool.or_eq_true, beq_iff_eq, ih, List.mem_cons]

/-- Every run of `getRecommendedMovies` is either one of the two empty-input
early returns or the assembled pipeline over the candidate list. -/
theorem getRecommendedMovies_eq (currentYear : ℤ) (localMovies : List LocalMovie)
    (favorites : List Movie) (useAPI : Bool) (limit : ℕ)
    (watchedMovies : List WatchedEntry) (allMoviesForLookup : List Movie)
    (userRatings : List (String × ℚ)) (apiFetch : Except String (List Movie)) :
    getRecommendedMovies currentYear localMovies favorites useAPI limit watchedMovies
      allMoviesForLookup userRatings apiFetch = [] ∨
    getRecommendedMovies currentYear localMovies favorites useAPI limit watchedMovies
      allMoviesForLookup userRatings apiFetch =
      assembleFromCandidates
        (recommendationGate currentYear favorites watchedMovies allMoviesForLookup userRatings)
        limit (recommendationCandidates localMovies useAPI apiFetch) := by
  by_cases h1 : favorites = [] ∧ watchedMovies = []
  · left
    rw [getRecommendedMovies, if_pos h1]
  · by_cases h2 : (extractUserPreferences favorites watchedMovies allMoviesForLookup
        userRatings).genres = [] ∧
      (extractUserPreferences favorites watchedMovies allMoviesForLookup
        userRatings).directors = [] ∧
      (extractUserPreferences favorites watchedMovies allMoviesForLookup
        userRatings).actors = []
    · left
      rw [getRecommendedMovies, if_neg h1]
      show (if _ ∧ _ ∧ _ then ([] : List ScoredMovie) else _) = []
      rw [if_pos h2]
    · right
      rw [getRecommendedMovies, if_neg h1]
      show (if _ ∧ _ ∧ _ then ([] : List ScoredMovie) else _) = _
      rw [if_neg h2]

/-- What a successful pass through the scan-loop gate guarantees. -/
theorem scoreGate_some_spec (currentYear : ℤ)
    (favoriteIds favoriteTitles watchedIds watchedTitles : List String)
    (precomputedPrefs : PrecomputedPrefs) (m : Movie) (s : ScoredMovie)
    (h : scoreGate currentYear favoriteIds favoriteTitles watchedIds watchedTitles
      precomputedPrefs m = some s) :
    s.movie = m ∧
    isFavoriteMovie favoriteIds favoriteTitles m = false ∧
    isWatchedMovie watchedIds watchedTitles m = false ∧
    0 < s.recommendationScore := by
  unfold scoreGate at h
  by_cases hex : (isFavoriteMovie favoriteIds favoriteTitles m ||
      isWatchedMovie watchedIds watchedTitles m) = true
  · rw [if_pos hex] at h
    cases h
  · rw [if_neg hex] at h
    rw [Bool.or_eq_true, not_or] at hex
    obtain ⟨hf, hw⟩ := hex
    by_cases hsc : qlt (mkRat 0 1)
        (calculateRecommendationScore currentYear m precomputedPrefs).score = true
    · rw [if_pos hsc] at h
      cases h
      refine ⟨rfl, Bool.not_eq_true _ ▸ hf, Bool.not_eq_true _ ▸ hw, ?_⟩
      have := (qlt_iff _ _).mp hsc
      calc (0 : ℚ) = mkRat 0 1 := by rw [mkRat_div]; norm_num
        _ < _ := this
    · rw [if_neg hsc] at h
      cases h

theorem assembleFromCandidates_length (gate : Movie → Option ScoredMovie) (limit : ℕ)
    (allMovies : List Movie) :
    (assembleFromCandidates gate limit allMovies).length ≤ limit := by
  unfold assembleFromCandidates
  split
  next result heq =>
    obtain ⟨acc', rfl⟩ := batchScanChunks_early_shape gate limit _ _ _ heq
    rw [List.length_take]
    omega
  next sc heq =>
    rw [List.length_take]
    omega

theorem assembleFromCandidates_sorted (gate : Movie → Option ScoredMovie) (limit : ℕ)
    (allMovies : List Movie) :
    (assembleFromCandidates gate limit allMovies).Pairwise scoredRel := by
  unfold assembleFromCandidates
  split
  next result heq =>
    obtain ⟨acc', rfl⟩ := batchScanChunks_early_shape gate limit _ _ _ heq
    exact (sortScoredMovies_pairwise acc').sublist (List.take_sublist _ _)
  next sc heq =>
    have h1 : (diversityFilter (sortScoredMovies sc) [] []).Pairwise scoredRel :=
      (sortScoredMovies_pairwise sc).sublist (diversityFilter_sublist _ _ _)
    exact h1.sublist (List.take_sublist _ _)

/-- Every element of the assembled output passed the gate. -/
theorem assembleFromCandidates_mem (gate : Movie → Option ScoredMovie) (limit : ℕ)
    (allMovies : List Movie) (P : ScoredMovie → Prop)
    (hgate : ∀ m s, gate m = some s → P s) (s : ScoredMovie)
    (hs : s ∈ assembleFromCandidates gate limit allMovies) : P s := by
  unfold assembleFromCandidates at hs
  revert hs
  split
  next result heq =>
    intro hs
    exact (batchScanChunks_inv gate limit P hgate _ [] (by simp)).1 result heq s hs
  next sc heq =>
    intro hs
    have h1 : s ∈ diversityFilter (sortScoredMovies sc) [] [] :=
      (List.take_sublist _ _).mem hs
    have h2 : s ∈ sortScoredMovies sc := (diversityFilter_sublist _ _ _).mem h1
    have h3 : s ∈ sc := (sortScoredMovies_perm sc).mem_iff.mp h2
    exact (batchScanChunks_inv gate limit P hgate _ [] (by simp)).2 sc heq s h3

/-! ### Claim C4 -/

/-- C4: for every input, the list returned by `getRecommendedMovies` has
length at most `limit` and is sorted by recommendation score descending with
equal-score entries ordered by rating descending; this holds on both the
early-termination path and the full-scan path (the proof covers every path of
the function). -/
theorem claim_C4 (currentYear : ℤ) (localMovies : List LocalMovie)
    (favorites : List Movie) (useAPI : Bool) (limit : ℕ)
    (watchedMovies : List WatchedEntry) (allMoviesForLookup : List Movie)
    (userRatings : List (String × ℚ)) (apiFetch : Except String (List Movie)) :
    (getRecommendedMovies currentYear localMovies favorites useAPI limit watchedMovies
      allMoviesForLookup userRatings apiFetch).length ≤ limit ∧
    (getRecommendedMovies currentYear localMovies favorites useAPI limit watchedMovies
      allMoviesForLookup userRatings apiFetch).Pairwise scoredRel := by
  rcases getRecommendedMovies_eq currentYear localMovies favorites useAPI limit
    watchedMovies allMoviesForLookup userRatings apiFetch with h | h <;> rw [h]
  · exact ⟨Nat.zero_le _, List.Pairwise.nil⟩
  · exact ⟨assembleFromCandidates_length _ _ _, assembleFromCandidates_sorted _ _ _⟩

/-! ### Claim C2 -/

/-- C2 is FALSE as stated: with limit 4 and eight positive-score candidates
by the same director "D", the early-termination path (8 ≥ 2·4 after the first
batch) returns the accumulated candidates without any diversity pass, and the
director "D" appears in all 4 returned entries — more than the claimed
maximum of 3. -/
theorem claim_C2_counterexample :
    (batchScanChunks (recommendationGate 2026 [c2Favorite] [] [] []) 4
      (chunksOf50 (recommendationCandidates c2Locals false (.ok []))) []).isFull = false ∧
    c2Output.length = 4 ∧
    3 < c2Output.countP (fun s => s.movie.director = some "D") := by
  refine ⟨by decide, by decide, by decide⟩

/-- C2 (amended): when the run takes the full-scan path (the early-termination
return is not taken), no (non-empty-named) director appears in more than 3
entries of the output and no cast member appears in more than 2; on the
early-termination path no diversity constraint is enforced (see the
counterexample). -/
theorem claim_C2 (currentYear : ℤ) (localMovies : List LocalMovie)
    (favorites : List Movie) (useAPI : Bool) (limit : ℕ)
    (watchedMovies : List WatchedEntry) (allMoviesForLookup : List Movie)
    (userRatings : List (String × ℚ)) (apiFetch : Except String (List Movie))
    (d a : String)
    (hfull : (batchScanChunks
      (recommendationGate currentYear favorites watchedMovies allMoviesForLookup userRatings)
      limit (chunksOf50 (recommendationCandidates localMovies useAPI apiFetch))
      []).isFull = true)
    (hd : d ≠ "") :
    (getRecommendedMovies currentYear localMovies favorites useAPI limit watchedMovies
      allMoviesForLookup userRatings apiFetch).countP
      (fun s => s.movie.director = some d) ≤ 3 ∧
    (getRecommendedMovies currentYear localMovies favorites useAPI limit watchedMovies
      allMoviesForLookup userRatings apiFetch).countP
      (fun s => s.movie.cast.contains a) ≤ 2 := by
  rcases getRecommendedMovies_eq currentYear localMovies favorites useAPI limit
    watchedMovies allMoviesForLookup userRatings apiFetch with h | h <;> rw [h]
  · simp
  · unfold assembleFromCandidates
    split
    next result heq =>
      rw [heq] at hfull
      simp [ScanOutcome.isFull] at hfull
    next sc heq =>
      constructor
      · have h1 := diversityFilter_director_count d hd (sortScoredMovies sc) [] []
        have h2 : lookupCount [] d = 0 := rfl
        rw [h2] at h1
        calc (List.take limit (diversityFilter (sortScoredMovies sc) [] [])).countP
              (fun s => s.movie.director = some d)
            ≤ (diversityFilter (sortScoredMovies sc) [] []).countP
              (fun s => s.movie.director = some d) :=
              (List.take_sublist _ _).countP_le _
          _ ≤ 3 - 0 := h1
          _ ≤ 3 := by omega
      · have h1 := diversityFilter_actor_count a (sortScoredMovies sc) [] []
        have h2 : lookupCount [] a = 0 := rfl
        rw [h2] at h1
        calc (List.take limit (diversityFilter (sortScoredMovies sc) [] [])).countP
              (fun s => s.movie.cast.contains a)
            ≤ (diversityFilter (sortScoredMovies sc) [] []).countP
              (fun s => s.movie.cast.contains a) :=
              (List.take_sublist _ _).countP_le _
          _ ≤ 2 - 0 := h1
          _ ≤ 2 := by omega

/-- Witness for the amended C2 on a concrete full-scan run. -/
theorem claim_C2_witness :
    ((batchScanChunks (recommendationGate 2026 [c2Favorite] [] [] []) 20
      (chunksOf50 (recommendationCandidates [c2wLocal] false (.ok []))) []).isFull = true ∧
      "D" ≠ "") ∧
    ((getRecommendedMovies 2026 [c2wLocal] [c2Favorite] false 20 [] [] [] (.ok [])).countP
      (fun s => s.movie.director = some "D") ≤ 3 ∧
     (getRecommendedMovies 2026 [c2wLocal] [c2Favorite] false 20 [] [] [] (.ok [])).countP
      (fun s => s.movie.cast.contains "A") ≤ 2) :=
  ⟨⟨by decide, by decide⟩,
    claim_C2 2026 [c2wLocal] [c2Favorite] false 20 [] [] [] (.ok []) "D" "A"
      (by decide) (by decide)⟩

/-! ### Claim C3 -/

theorem strListContains_false_iff (l : List String) (x : String) :
    l.contains x = false ↔ x ∉ l := by
  rw [← strListContains_iff]
  cases h : l.contains x <;> simp

/-- Decomposition of the two exclusion gates into the individual
non-membership facts. -/
theorem exclusion_of_gates (favoriteIds favoriteTitles watchedIds watchedTitles : List String)
    (m : Movie)
    (hf : isFavoriteMovie favoriteIds favoriteTitles m = false)
    (hw : isWatchedMovie watchedIds watchedTitles m = false) :
    (m.id ∉ favoriteIds ∧
     jsTrim (jsToLower m.title) ∉ favoriteTitles ∧
     (∀ ld, m.localData = some ld → ld.id ∉ favoriteIds)) ∧
    ((if m.id ≠ "" then m.id else m.tmdbId.getD "") ∉ watchedIds ∧
     m.tmdbId.getD "" ∉ watchedIds ∧
     (if strStartsWith (if m.id ≠ "" then m.id else m.tmdbId.getD "") "tmdb_"
        then strDrop (if m.id ≠ "" then m.id else m.tmdbId.getD "") 5
        else (if m.id ≠ "" then m.id else m.tmdbId.getD "")) ∉ watchedIds ∧
     jsTrim (jsToLower m.title) ∉ watchedTitles ∧
     (∀ ld, m.localData = some ld → ld.id ∉ watchedIds)) := by
  unfold isFavoriteMovie at hf
  unfold isWatchedMovie at hw
  rw [Bool.or_eq_false_iff, Bool.or_eq_false_iff] at hf
  obtain ⟨⟨hf1, hf2⟩, hf3⟩ := hf
  have hw' : (watchedIds.contains (if m.id ≠ "" then m.id else m.tmdbId.getD "") ||
      watchedIds.contains (m.tmdbId.getD "") ||
      watchedIds.contains
        (if strStartsWith (if m.id ≠ "" then m.id else m.tmdbId.getD "") "tmdb_"
          then strDrop (if m.id ≠ "" then m.id else m.tmdbId.getD "") 5
          else (if m.id ≠ "" then m.id else m.tmdbId.getD "")) ||
      watchedTitles.contains (jsTrim (jsToLower m.title)) ||
      (match m.localData with
       | some ld => watchedIds.contains ld.id
       | none => false)) = false := hw
  rw [Bool.or_eq_false_iff, Bool.or_eq_false_iff, Bool.or_eq_false_iff,
    Bool.or_eq_false_iff] at hw'
  obtain ⟨⟨⟨⟨hw1, hw2⟩, hw3⟩, hw4⟩, hw5⟩ := hw'
  refine ⟨⟨(strListContains_false_iff _ _).mp hf1,
    (strListContains_false_iff _ _).mp hf2, ?_⟩,
    (strListContains_false_iff _ _).mp hw1,
    (strListContains_false_iff _ _).mp hw2,
    (strListContains_false_iff _ _).mp hw3,
    (strListContains_false_iff _ _).mp hw4, ?_⟩
  · intro ld hld
    rw [hld] at hf3
    exact (strListContains_false_iff _ _).mp hf3
  · intro ld hld
    rw [hld] at hw5
    exact (strListContains_false_iff _ _).mp hw5

/-- C3 is FALSE as stated: a favorite with id "123" does not exclude a
candidate whose `tmdbId` (and `tmdb_`-stripped numeric id) is "123" but whose
title differs — the favorite check consults only the canonical id, the
normalized title, and the embedded local id.  The candidate appears in the
output. -/
theorem claim_C3_counterexample :
    c3Output.map (fun s => s.movie.id) = ["tmdb_123"] ∧
    c3Favorite.id = "123" ∧
    c3ApiMovie.tmdbId = some "123" ∧
    strDrop c3ApiMovie.id 5 = "123" := by
  refine ⟨by decide, rfl, rfl, by decide⟩

/-- C3 (amended): every movie in the output of `getRecommendedMovies` is
excluded against watched entries by all id forms (canonical, bare `tmdbId`,
`tmdb_`-stripped numeric id, embedded local id) and by normalized title, but
against favorites only by canonical id, embedded local id, and normalized
title (NOT by the `tmdbId`/numeric-id forms — see the counterexample). -/
theorem claim_C3 (currentYear : ℤ) (localMovies : List LocalMovie)
    (favorites : List Movie) (useAPI : Bool) (limit : ℕ)
    (watchedMovies : List WatchedEntry) (allMoviesForLookup : List Movie)
    (userRatings : List (String × ℚ)) (apiFetch : Except String (List Movie))
    (s : ScoredMovie)
    (hs : s ∈ getRecommendedMovies currentYear localMovies favorites useAPI limit
      watchedMovies allMoviesForLookup userRatings apiFetch) :
    (s.movie.id ∉ favoriteIdsOf favorites ∧
     jsTrim (jsToLower s.movie.title) ∉ favoriteTitlesOf favorites ∧
     (∀ ld, s.movie.localData = some ld → ld.id ∉ favoriteIdsOf favorites)) ∧
    ((if s.movie.id ≠ "" then s.movie.id else s.movie.tmdbId.getD "") ∉
        watchedIdsOf watchedMovies ∧
     s.movie.tmdbId.getD "" ∉ watchedIdsOf watchedMovies ∧
     (if strStartsWith (if s.movie.id ≠ "" then s.movie.id else s.movie.tmdbId.getD "")
          "tmdb_"
        then strDrop (if s.movie.id ≠ "" then s.movie.id else s.movie.tmdbId.getD "") 5
        else (if s.movie.id ≠ "" then s.movie.id else s.movie.tmdbId.getD "")) ∉
        watchedIdsOf watchedMovies ∧
     jsTrim (jsToLower s.movie.title) ∉
        watchedTitlesOf watchedMovies allMoviesForLookup ∧
     (∀ ld, s.movie.localData = some ld → ld.id ∉ watchedIdsOf watchedMovies)) := by
  rcases getRecommendedMovies_eq currentYear localMovies favorites useAPI limit
    watchedMovies allMoviesForLookup userRatings apiFetch with h | h
  · rw [h] at hs
    cases hs
  · rw [h] at hs
    show exclusionInvariant favorites watchedMovies allMoviesForLookup s.movie
    refine assembleFromCandidates_mem _ limit _
      (fun t => exclusionInvariant favorites watchedMovies allMoviesForLookup t.movie)
      ?_ s hs
    intro m t hg
    unfold recommendationGate at hg
    obtain ⟨hm, hf, hw, -⟩ := scoreGate_some_spec _ _ _ _ _ _ _ _ hg
    show exclusionInvariant favorites watchedMovies allMoviesForLookup t.movie
    rw [hm]
    exact exclusion_of_gates _ _ _ _ m hf hw

/-- Witness for the amended C3 on a concrete run with one accepted
candidate. -/
theorem claim_C3_witness :
    (c3wOutput.headI ∈ c3wOutput) ∧
    ((c3wOutput.headI.movie.id ∉ favoriteIdsOf [c3wFavorite] ∧
      jsTrim (jsToLower c3wOutput.headI.movie.title) ∉ favoriteTitlesOf [c3wFavorite] ∧
      (∀ ld, c3wOutput.headI.movie.localData = some ld →
        ld.id ∉ favoriteIdsOf [c3wFavorite])) ∧
     ((if c3wOutput.headI.movie.id ≠ "" then c3wOutput.headI.movie.id
         else c3wOutput.headI.movie.tmdbId.getD "") ∉ watchedIdsOf [] ∧
      c3wOutput.headI.movie.tmdbId.getD "" ∉ watchedIdsOf [] ∧
      (if strStartsWith (if c3wOutput.headI.movie.id ≠ "" then c3wOutput.headI.movie.id
            else c3wOutput.headI.movie.tmdbId.getD "") "tmdb_"
         then strDrop (if c3wOutput.headI.movie.id ≠ "" then c3wOutput.headI.movie.id
            else c3wOutput.headI.movie.tmdbId.getD "") 5
         else (if c3wOutput.headI.movie.id ≠ "" then c3wOutput.headI.movie.id
            else c3wOutput.headI.movie.tmdbId.getD "")) ∉ watchedIdsOf [] ∧
      jsTrim (jsToLower c3wOutput.headI.movie.title) ∉ watchedTitlesOf [] [] ∧
      (∀ ld, c3wOutput.headI.movie.localData = some ld →
        ld.id ∉ watchedIdsOf []))) :=
  ⟨by decide,
    claim_C3 2026 [c3wLocal] [c3wFavorite] false 20 [] [] [] (.ok [])
      c3wOutput.headI (by decide)⟩

/-! ### Claim C1 -/

/-- C1 is FALSE as stated: a candidate with no genre/director/actor overlap
with the profile (matchCount 0, all breakdown match flags false) still scores
20 = 15 (rating-proximity bonus from the profile's `userAvgRating`) + 5
(recency bonus from the candidate's release year) — not 0. -/
theorem claim_C1_counterexample :
    (calculateRecommendationScore 2026 c1Candidate c1Prefs).matchCount = 0 ∧
    (calculateRecommendationScore 2026 c1Candidate c1Prefs).breakdown.genreHighScore = false ∧
    (calculateRecommendationScore 2026 c1Candidate c1Prefs).breakdown.genreMatch = false ∧
    (calculateRecommendationScore 2026 c1Candidate c1Prefs).breakdown.directorMatch = false ∧
    (calculateRecommendationScore 2026 c1Candidate c1Prefs).breakdown.actorMatch = false ∧
    (calculateRecommendationScore 2026 c1Candidate c1Prefs).score = mkRat 20 1 ∧
    (calculateRecommendationScore 2026 c1Candidate c1Prefs).score ≠ 0 := by
  refine ⟨by decide, by decide, by decide, by decide, by decide, by decide, ?_⟩
  have h : (calculateRecommendationScore 2026 c1Candidate c1Prefs).score = mkRat 20 1 :=
    by decide
  rw [h, mkRat_div]
  norm_num

/-- The proximity bonus never exceeds 15. -/
theorem proximityBonus_le (rating : ℚ) (u : Option ℚ) : proximityBonus rating u ≤ 15 := by
  rcases u with _ | u <;> simp only [proximityBonus]
  · norm_num [mkRat_div]
  · split_ifs <;> norm_num [mkRat_div]

/-- The proximity bonus is never negative. -/
theorem proximityBonus_nonneg (rating : ℚ) (u : Option ℚ) : 0 ≤ proximityBonus rating u := by
  rcases u with _ | u <;> simp only [proximityBonus]
  · norm_num [mkRat_div]
  · split_ifs <;> norm_num [mkRat_div]

/-- The recency bonus never exceeds 5. -/
theorem recencyBonus_le (currentYear : ℤ) (y : Option ℤ) :
    recencyBonus currentYear y ≤ 5 := by
  rcases y with _ | y <;> simp only [recencyBonus]
  · norm_num [mkRat_div]
  · split_ifs <;> norm_num [mkRat_div]

/-- The recency bonus is never negative. -/
theorem recencyBonus_nonneg (currentYear : ℤ) (y : Option ℤ) :
    0 ≤ recencyBonus currentYear y := by
  rcases y with _ | y <;> simp only [recencyBonus]
  · norm_num [mkRat_div]
  · split_ifs <;> norm_num [mkRat_div]

/-- C1 (amended): a candidate with no genre, director, or actor overlap gets
`matchCount = 0`, and its score is exactly the rating-proximity bonus plus
the recency bonus — both awarded with no regard to matches.  The proximity
bonus is 15 when the candidate's rating is within 0.5 of a truthy
`userAvgRating`, 10 within 1, else 0, and 0 when `userAvgRating` is absent
or 0; the recency bonus is 5 when the release year is within 5 years of the
current year, 3 within 10, else 0, and 0 when the year is absent or 0.  The
total is therefore between 0 and 20, not always 0 (see the
counterexample). -/
theorem claim_C1 (currentYear : ℤ) (movie : Movie) (prefs : PrecomputedPrefs)
    (hg : genresMatch movie.genre prefs.genres = false)
    (hd : directorMatches movie.director prefs.directors = false)
    (ha : actorMatches movie.cast prefs.actors = false) :
    (calculateRecommendationScore currentYear movie prefs).matchCount = 0 ∧
    (calculateRecommendationScore currentYear movie prefs).score =
      proximityBonus (getMovieRating movie) prefs.userAvgRating +
      recencyBonus currentYear movie.year ∧
    (∀ u, prefs.userAvgRating = some u → u ≠ 0 →
      proximityBonus (getMovieRating movie) prefs.userAvgRating =
        (if |getMovieRating movie - u| ≤ 1/2 then (15 : ℚ)
         else if |getMovieRating movie - u| ≤ 1 then 10 else 0)) ∧
    ((prefs.userAvgRating = none ∨ prefs.userAvgRating = some 0) →
      proximityBonus (getMovieRating movie) prefs.userAvgRating = 0) ∧
    (∀ y, movie.year = some y → y ≠ 0 →
      recencyBonus currentYear movie.year =
        (if currentYear - y ≤ 5 then (5 : ℚ)
         else if currentYear - y ≤ 10 then 3 else 0)) ∧
    ((movie.year = none ∨ movie.year = some 0) →
      recencyBonus currentYear movie.year = 0) ∧
    0 ≤ (calculateRecommendationScore currentYear movie prefs).score ∧
    (calculateRecommendationScore currentYear movie prefs).score ≤ 20 := by
  have hscore : (calculateRecommendationScore currentYear movie prefs).score =
      proximityBonus (getMovieRating movie) prefs.userAvgRating +
      recencyBonus currentYear movie.year := by
    rcases huu : prefs.userAvgRating with _ | u <;>
      rcases hyy : movie.year with _ | y <;>
        simp only [calculateRecommendationScore, proximityBonus, recencyBonus,
          hg, hd, ha, huu, hyy] <;>
      norm_num [qadd_eq, mkRat_div]
  refine ⟨?_, hscore, ?_, ?_, ?_, ?_, ?_, ?_⟩
  · simp [calculateRecommendationScore, hg, hd, ha]
  · intro u huu hu0
    simp only [huu, proximityBonus, if_neg hu0, qabs_eq, qsub_eq, qle_iff]
    norm_num [mkRat_div]
  · rintro (huu | huu) <;> simp only [huu, proximityBonus] <;> norm_num [mkRat_div]
  · intro y hyy hy0
    simp only [hyy, recencyBonus, if_neg hy0]
    norm_num [mkRat_div]
  · rintro (hyy | hyy) <;> simp only [hyy, recencyBonus] <;> norm_num [mkRat_div]
  · rw [hscore]
    have h1 := proximityBonus_nonneg (getMovieRating movie) prefs.userAvgRating
    have h2 := recencyBonus_nonneg currentYear movie.year
    linarith
  · rw [hscore]
    have h1 := proximityBonus_le (getMovieRating movie) prefs.userAvgRating
    have h2 := recencyBonus_le currentYear movie.year
    linarith

/-- Witness for the amended C1 on a concrete no-overlap candidate that
collects both bonuses. -/
theorem claim_C1_witness :
    (genresMatch c1Candidate.genre c1Prefs.genres = false ∧
     directorMatches c1Candidate.director c1Prefs.directors = false ∧
     actorMatches c1Candidate.cast c1Prefs.actors = false) ∧
    (calculateRecommendationScore 2026 c1Candidate c1Prefs).matchCount = 0 ∧
    (calculateRecommendationScore 2026 c1Candidate c1Prefs).score =
      proximityBonus (getMovieRating c1Candidate) c1Prefs.userAvgRating +
      recencyBonus 2026 c1Candidate.year ∧
    (calculateRecommendationScore 2026 c1Candidate c1Prefs).score ≤ 20 := by
  have h := claim_C1 2026 c1Candidate c1Prefs (by decide) (by decide) (by decide)
  exact ⟨⟨by decide, by decide, by decide⟩, h.1, h.2.1, h.2.2.2.2.2.2.2⟩

/-! ### Claim C5 -/

/-- C5 is FALSE as stated: `calculateRecommendationScore` reads the ambient
clock (`new Date().getFullYear()`, the `currentYear` parameter of the model)
for the recency bonus, so two runs with identical candidate and profile at
different times produce different outputs (here scores 5 and 0 for a movie
released in 2024, scored in 2026 vs. 2037). -/
theorem claim_C5_counterexample :
    calculateRecommendationScore 2026 c5Movie c5Prefs ≠
      calculateRecommendationScore 2037 c5Movie c5Prefs := by
  decide

/-- C5 (amended): the scoring function is a deterministic pure function of
candidate, profile, AND the current year; in particular for a candidate with
no parseable release year the output is identical at any two times. -/
theorem claim_C5 (y₁ y₂ : ℤ) (movie : Movie) (prefs : PrecomputedPrefs)
    (hy : movie.year = none) :
    calculateRecommendationScore y₁ movie prefs =
      calculateRecommendationScore y₂ movie prefs := by
  simp only [calculateRecommendationScore, hy]

/-- Witness for the amended C5. -/
theorem claim_C5_witness :
    (c5wMovie.year = none) ∧
    calculateRecommendationScore 2000 c5wMovie c5Prefs =
      calculateRecommendationScore 3000 c5wMovie c5Prefs :=
  ⟨rfl, claim_C5 2000 3000 c5wMovie c5Prefs rfl⟩

/-- Every movie in a successful `directorSearchBody` result passes
`personQueryFilter` (the non-empty result list is literally a `filter` by that
predicate; the empty-result paths are vacuous). -/
theorem directorSearchBody_filtered (hasApiKey : Bool) (todaysDate : SimpleDate)
    (currentYear : ℤ) (oracle : PersonOracle) (v : List Movie) (b : Bool)
    (h : directorSearchBody hasApiKey todaysDate currentYear oracle = .ok (v, b)) :
    ∀ m ∈ v, personQueryFilter todaysDate currentYear m = true := by
  intro m hm
  unfold directorSearchBody at h
  repeat' split at h
  all_goals first
    | (simp only [Except.ok.injEq, Prod.mk.injEq] at h
       obtain ⟨hv, -⟩ := h
       subst hv
       first
         | cases hm
         | exact (List.mem_filter.mp hm).2)
    | exact Except.noConfusion h

/-- Every movie in a successful `actorSearchBody` result passes
`personQueryFilter`. -/
theorem actorSearchBody_filtered (hasApiKey : Bool) (todaysDate : SimpleDate)
    (currentYear : ℤ) (oracle : PersonOracle) (v : List Movie) (b : Bool)
    (h : actorSearchBody hasApiKey todaysDate currentYear oracle = .ok (v, b)) :
    ∀ m ∈ v, personQueryFilter todaysDate currentYear m = true := by
  intro m hm
  unfold actorSearchBody at h
  repeat' split at h
  all_goals first
    | (simp only [Except.ok.injEq, Prod.mk.injEq] at h
       obtain ⟨hv, -⟩ := h
       subst hv
       first
         | cases hm
         | exact (List.mem_filter.mp hm).2)
    | exact Except.noConfusion h

/-- C8 is FALSE as stated: a director query returns a movie whose only genre
is Family (10751) and a movie with no genre identifiers at all — the person
queries never check `genre_ids`, never exclude Family, and apply no
genre-pair incompatibility rule. -/
theorem claim_C8_counterexample :
    (searchMoviesByDirector true c8Today 2026 [] "john doe" c8Oracle).1 =
      .ok [convertTMDBToMovieFormat c8RawFam, convertTMDBToMovieFormat c8RawEmpty] ∧
    (convertTMDBToMovieFormat c8RawFam).genre_ids = [10751] ∧
    (convertTMDBToMovieFormat c8RawEmpty).genre_ids = [] :=
  ⟨rfl, rfl, rfl⟩

/-- C8 (amended): person queries apply only the four-step filter — released,
title not blocklisted, language not Turkish/Spanish, not Musical (10402) —
and NOT the full 7-step pipeline: no `genre_ids`-nonempty check, no Family
exclusion, no genre-pair incompatibility (see the counterexample).  Provided
every cached list already satisfies that filter, every movie returned by
`searchMoviesByDirector` and `searchMoviesByActor` satisfies it. -/
theorem claim_C8 (hasApiKey : Bool) (todaysDate : SimpleDate) (currentYear : ℤ)
    (cacheD cacheA : PersonCache) (directorName actorName : String)
    (oracleD oracleA : PersonOracle)
    (hD : ∀ k v, cacheLookup cacheD k = some v →
      ∀ m ∈ v, personQueryFilter todaysDate currentYear m = true)
    (hA : ∀ k v, cacheLookup cacheA k = some v →
      ∀ m ∈ v, personQueryFilter todaysDate currentYear m = true)
    (msD msA : List Movie)
    (hrD : (searchMoviesByDirector hasApiKey todaysDate currentYear cacheD
      directorName oracleD).1 = .ok msD)
    (hrA : (searchMoviesByActor hasApiKey todaysDate currentYear cacheA
      actorName oracleA).1 = .ok msA) :
    (∀ m ∈ msD, personQueryFilter todaysDate currentYear m = true) ∧
    (∀ m ∈ msA, personQueryFilter todaysDate currentYear m = true) := by
  constructor
  · unfold searchMoviesByDirector at hrD
    split at hrD
    · simp only [Except.ok.injEq] at hrD
      subst hrD
      intro m hm
      cases hm
    · split at hrD
      next v heq =>
        dsimp only at hrD
        split at hrD
        next cached hc =>
          simp only [Except.ok.injEq] at hrD
          subst hrD
          exact hD _ _ hc
        next hc =>
          simp only [Except.ok.injEq] at hrD
          subst hrD
          exact directorSearchBody_filtered _ _ _ _ _ _ heq
      next v heq =>
        dsimp only at hrD
        split at hrD
        next cached hc =>
          simp only [Except.ok.injEq] at hrD
          subst hrD
          exact hD _ _ hc
        next hc =>
          simp only [Except.ok.injEq] at hrD
          subst hrD
          exact directorSearchBody_filtered _ _ _ _ _ _ heq
      next e heq =>
        dsimp only at hrD
        split at hrD
        next cached hc =>
          simp only [Except.ok.injEq] at hrD
          subst hrD
          exact hD _ _ hc
        next hc =>
          simp only [Except.ok.injEq] at hrD
          subst hrD
          intro m hm
          cases hm
  · unfold searchMoviesByActor at hrA
    split at hrA
    · simp only [Except.ok.injEq] at hrA
      subst hrA
      intro m hm
      cases hm
    · split at hrA
      next v heq =>
        dsimp only at hrA
        split at hrA
        next cached hc =>
          simp only [Except.ok.injEq] at hrA
          subst hrA
          exact hA _ _ hc
        next hc =>
          simp only [Except.ok.injEq] at hrA
          subst hrA
          exact actorSearchBody_filtered _ _ _ _ _ _ heq
      next v heq =>
        dsimp only at hrA
        split at hrA
        next cached hc =>
          simp only [Except.ok.injEq] at hrA
          subst hrA
          exact hA _ _ hc
        next hc =>
          simp only [Except.ok.injEq] at hrA
          subst hrA
          exact actorSearchBody_filtered _ _ _ _ _ _ heq
      next e heq =>
        dsimp only at hrA
        split at hrA
        next cached hc =>
          simp only [Except.ok.injEq] at hrA
          subst hrA
          exact hA _ _ hc
        next hc =>
          simp only [Except.ok.injEq] at hrA
          subst hrA
          intro m hm
          cases hm

/-- Witness for the amended C8: the concrete director query's two returned
movies (Family-only and genre-less) both satisfy the four-step person
filter. -/
theorem claim_C8_witness :
    personQueryFilter c8Today 2026 (convertTMDBToMovieFormat c8RawFam) = true ∧
    personQueryFilter c8Today 2026 (convertTMDBToMovieFormat c8RawEmpty) = true := by
  have h := (claim_C8 true c8Today 2026 [] [] "john doe" "jane roe" c8Oracle c8Oracle
    (fun _ _ hc => by simp [cacheLookup] at hc)
    (fun _ _ hc => by simp [cacheLookup] at hc)
    [convertTMDBToMovieFormat c8RawFam, convertTMDBToMovieFormat c8RawEmpty] []
    rfl rfl).1
  exact ⟨h _ (by simp), h _ (by simp)⟩

/-- C9 is FALSE as stated: the genre cache key omits `limit`, so a query for
"Komedi" with limit 2 made after an identical query with limit 1 is served
the first call's one-element truncated result instead of the two-element
result a fresh limit-2 call produces. -/
theorem claim_C9_counterexample :
    c9Run1.1 = .ok [convertTMDBToMovieFormat c9RawA] ∧
    c9Run2.1 = c9Run1.1 ∧
    c9Fresh2.1 = .ok [convertTMDBToMovieFormat c9RawA, convertTMDBToMovieFormat c9RawB] ∧
    c9Run2.1 ≠ c9Fresh2.1 := by
  refine ⟨rfl, rfl, rfl, fun h => ?_⟩
  have h' : Except.ok (ε := String) [convertTMDBToMovieFormat c9RawA] =
      .ok [convertTMDBToMovieFormat c9RawA, convertTMDBToMovieFormat c9RawB] := h
  injection h' with h1
  exact absurd h1 (by decide)

/-- C9 (amended): the genre cache key is built from the genre ids, sort mode,
year bounds, rating floor and page — but NOT the result-count `limit`: two
invocations differing only in `limit` share a key, and whenever the key is
cached the stored list is returned verbatim, whatever the current call's
`limit` (see the counterexample for an actual collision). -/
theorem claim_C9 (hasApiKey : Bool) (todaysDate : SimpleDate) (currentYear : ℤ)
    (cache : GenreCache) (genre : String) (options : GenreSearchOptions)
    (oracle : GenreFetchOracle) (n : ℕ) (entry : GenreMapEntry) (v : List Movie)
    (hmap : GENRE_MAP genre = some entry)
    (hcached : cacheLookup cache (genreCacheKey (genreEntryIds entry) options) = some v) :
    genreCacheKey (genreEntryIds entry) { options with limit := n } =
      genreCacheKey (genreEntryIds entry) options ∧
    (searchMoviesByGenre hasApiKey todaysDate currentYear cache genre options
      oracle).1 = .ok v := by
  refine ⟨rfl, ?_⟩
  unfold searchMoviesByGenre
  rw [hmap]
  cases entry with
  | single i =>
    dsimp only [genreEntryIds] at hcached
    dsimp only
    rw [hcached]
  | merged ids =>
    dsimp only [genreEntryIds] at hcached
    dsimp only
    rw [hcached]

/-- Witness for the amended C9: the limit-2 call is served the limit-1
call's cached one-element list. -/
theorem claim_C9_witness :
    GENRE_MAP "Komedi" = some (.single 35) ∧
    cacheLookup c9Run1.2 (genreCacheKey (genreEntryIds (.single 35)) c9Opts2) =
      some [convertTMDBToMovieFormat c9RawA] ∧
    (searchMoviesByGenre true c9Today 2026 c9Run1.2 "Komedi" c9Opts2 c9Oracle).1 =
      .ok [convertTMDBToMovieFormat c9RawA] :=
  ⟨rfl, by decide,
    (claim_C9 true c9Today 2026 c9Run1.2 "Komedi" c9Opts2 c9Oracle 1 (.single 35)
      [convertTMDBToMovieFormat c9RawA] rfl (by decide)).2⟩

/-! ### Claim C10 -/

/-- C10: no public operation ever rejects.  Whatever the inputs, cache
contents and external-call outcomes (network error, non-2xx status, malformed
JSON), each catalog operation resolves to an array (`.ok`, empty on failure)
— every throw inside a `try` block is converted by the surrounding `catch`
into a resolved `[]` — and `getRecommendedMovies` with a rejected API fan-out
behaves exactly like the API-less run with an empty fetch result. -/
theorem claim_C10 :
    (∀ hasApiKey todaysDate currentYear cache genre options oracle,
      (searchMoviesByGenre hasApiKey todaysDate currentYear cache genre options
        oracle).1.isOk = true) ∧
    (∀ hasApiKey todaysDate currentYear cache directorName oracle,
      (searchMoviesByDirector hasApiKey todaysDate currentYear cache directorName
        oracle).1.isOk = true) ∧
    (∀ hasApiKey todaysDate currentYear cache actorName oracle,
      (searchMoviesByActor hasApiKey todaysDate currentYear cache actorName
        oracle).1.isOk = true) ∧
    (∀ hasApiKey todaysDate currentYear cache query page limit oracle,
      (searchMoviesInTMDB hasApiKey todaysDate currentYear cache query page limit
        oracle).1.isOk = true) ∧
    (∀ hasApiKey todaysDate currentYear cache page limit sortBy oracle,
      (getTopRatedMovies hasApiKey todaysDate currentYear cache page limit sortBy
        oracle).1.isOk = true) ∧
    (∀ currentYear localMovies favorites limit watchedMovies allMoviesForLookup
        userRatings e,
      getRecommendedMovies currentYear localMovies favorites true limit
        watchedMovies allMoviesForLookup userRatings (.error e) =
      getRecommendedMovies currentYear localMovies favorites false limit
        watchedMovies allMoviesForLookup userRatings (.ok [])) := by
  refine ⟨?_, ?_, ?_, ?_, ?_, ?_⟩
  · intro hasApiKey todaysDate currentYear cache genre options oracle
    unfold searchMoviesByGenre
    dsimp only
    repeat' split
    all_goals rfl
  · intro hasApiKey todaysDate currentYear cache directorName oracle
    unfold searchMoviesByDirector
    dsimp only
    repeat' split
    all_goals rfl
  · intro hasApiKey todaysDate currentYear cache actorName oracle
    unfold searchMoviesByActor
    dsimp only
    repeat' split
    all_goals rfl
  · intro hasApiKey todaysDate currentYear cache query page limit oracle
    unfold searchMoviesInTMDB
    dsimp only
    repeat' split
    all_goals rfl
  · intro hasApiKey todaysDate currentYear cache page limit sortBy oracle
    unfold getTopRatedMovies
    dsimp only
    repeat' split
    all_goals rfl
  · intro currentYear localMovies favorites limit watchedMovies allMoviesForLookup
      userRatings e
    rfl

/-! ### Claim C6 -/

/-- C6 is FALSE as stated for all-empty inputs: the empty-working-set early
return happens before the `preferencesCache.set` line, so the second call
builds a fresh (structurally equal but distinct) object instead of returning
the first one. -/
theorem claim_C6_counterexample :
    (extractUserPreferencesM (extractUserPreferencesM emptyPrefsCacheState [] [] [] []).2
      [] [] [] []).1 ≠
      (extractUserPreferencesM emptyPrefsCacheState [] [] [] []).1 ∧
    (extractUserPreferencesM (extractUserPreferencesM emptyPrefsCacheState [] [] [] []).2
      [] [] [] []).1.prefs =
      (extractUserPreferencesM emptyPrefsCacheState [] [] [] []).1.prefs := by
  exact ⟨by decide, by decide⟩

/-- C6 (amended): whenever the working set (favorites plus resolved watched
movies) is non-empty, calling the extractor twice with byte-identical inputs
returns the very same profile object (the first call's object, via the
memoization cache) — but for an empty working set each call returns a fresh
object (see the counterexample). -/
theorem claim_C6 (st : PrefsCacheState) (favorites : List Movie)
    (watchedMovies : List WatchedEntry) (allMovies : List Movie)
    (userRatings : List (String × ℚ))
    (hne : favorites ++ resolveWatched watchedMovies allMovies ≠ []) :
    (extractUserPreferencesM (extractUserPreferencesM st favorites watchedMovies allMovies
      userRatings).2 favorites watchedMovies allMovies userRatings).1 =
    (extractUserPreferencesM st favorites watchedMovies allMovies userRatings).1 := by
  cases hf : st.cache.find?
      (fun p => p.1 = prefsCacheKey favorites watchedMovies userRatings) with
  | some p =>
    simp only [extractUserPreferencesM, hf]
  | none =>
    simp only [extractUserPreferencesM, hf, if_neg hne]
    rw [List.find?_append, hf]
    simp [List.find?]

/-- Witness for the amended C6: with a non-empty working set the second call
returns the first call's object. -/
theorem claim_C6_witness :
    ([c6wFavorite] ++ resolveWatched [] [] ≠ []) ∧
    (extractUserPreferencesM (extractUserPreferencesM emptyPrefsCacheState [c6wFavorite]
      [] [] []).2 [c6wFavorite] [] [] []).1 =
      (extractUserPreferencesM emptyPrefsCacheState [c6wFavorite] [] [] []).1 :=
  ⟨by decide, claim_C6 emptyPrefsCacheState [c6wFavorite] [] [] [] (by decide)⟩

/-- C7 is FALSE as stated: for a favorite rated 9 and a watched movie rated
6 (no explicit ratings), the code computes `normalizedAvgRating = (9 + 6) /
(1/1.5 + 1) = 9`, giving `minRating = 8.5`, whereas the claimed 1.5×-weighted
average is `(1.5·9 + 6) / 2.5 = 7.8`, giving `minRating = 7.5`. -/
theorem claim_C7_counterexample :
    (extractUserPreferences [c7Favorite] [.movie c7Watched] [] []).minRating = mkRat 17 2 ∧
    specMinRating [c7Favorite] [c7Watched] [] = mkRat 15 2 ∧
    (extractUserPreferences [c7Favorite] [.movie c7Watched] [] []).minRating ≠
      specMinRating [c7Favorite] [c7Watched] [] := by
  exact ⟨by decide, by decide, by decide⟩

/-- C7 (amended): for a non-empty working set,
`minRating = max(7.5, effectiveAvgRating − 0.5)`, where `effectiveAvgRating`
is the explicit-ratings average when at least one explicit rating lies in
[0.5, 5] and otherwise the code's derived value: with both rating groups
non-empty `(Σfav + Σwatch) / (nfav/1.5 + nwatch)` over the raw ratings (NOT
the claimed 1.5×-weighted average — see the counterexample), else the plain
average of the ×1.5-weighted favorite ratings and raw watched ratings,
defaulting to 8.0 when no usable rating exists. -/
theorem claim_C7 (favorites : List Movie) (watchedMovies : List WatchedEntry)
    (allMovies : List Movie) (userRatings : List (String × ℚ))
    (hne : favorites ++ resolveWatched watchedMovies allMovies ≠ []) :
    (extractUserPreferences favorites watchedMovies allMovies userRatings).minRating =
      max ((15 : ℚ)/2)
        (effectiveAvgRatingOf favorites (resolveWatched watchedMovies allMovies)
          userRatings - 1/2) := by
  simp only [extractUserPreferences, if_neg hne]
  rw [qmax_eq, qsub_eq, mkRat_div, mkRat_div]
  norm_num

/-- Witness for the amended C7. -/
theorem claim_C7_witness :
    ([c7Favorite] ++ resolveWatched [.movie c7Watched] [] ≠ []) ∧
    (extractUserPreferences [c7Favorite] [.movie c7Watched] [] []).minRating =
      max ((15 : ℚ)/2)
        (effectiveAvgRatingOf [c7Favorite] (resolveWatched [.movie c7Watched] [])
          [] - 1/2) :=
  ⟨by decide, claim_C7 [c7Favorite] [.movie c7Watched] [] [] (by decide)⟩

end MovieMate
